import Mathlib

/-!
Verification of the `ServiceManager` service layer (src/js/services-manager.js).

The JavaScript class is shallowly embedded: the mutable singleton becomes an
explicit state value (`SMState`) threaded through every operation, the host
clock and `Math.random()` become explicit parameters, and `localStorage`
becomes the `storage` field of the state.  `simulateNotification` only logs,
so it is modelled as an observable append-only event list (`notes`).
String primitives of JavaScript (`includes`, `trim`, `length`,
`toLowerCase`, `padStart`) are modelled over `List Char`, with `length`
counted in UTF-16 code units as in JavaScript.
-/

/-- JavaScript word character for `\b` in regular expressions:
`[A-Za-z0-9_]`. -/
def isWordChar (c : Char) : Bool :=
  let n := c.toNat
  (97 ≤ n && n ≤ 122) || (65 ≤ n && n ≤ 90) || (48 ≤ n && n ≤ 57) || n == 95

/-- JavaScript whitespace (`\s` and the characters removed by `trim`). -/
def isSpaceJS (c : Char) : Bool :=
  let n := c.toNat
  n == 9 || n == 10 || n == 11 || n == 12 || n == 13 || n == 32 ||
  n == 160 || n == 0x1680 || (0x2000 ≤ n && n ≤ 0x200A) ||
  n == 0x2028 || n == 0x2029 || n == 0x202F || n == 0x205F ||
  n == 0x3000 || n == 0xFEFF

/-- ASCII decimal digit (`\d` in JavaScript regular expressions). -/
def isDigitChar (c : Char) : Bool :=
  48 ≤ c.toNat && c.toNat ≤ 57

/-- `String.prototype.toLowerCase` restricted to the Basic Latin and
Latin-1 letters that occur in this code base (the default Unicode simple
case mapping adds 32 on these ranges). -/
def jsLowerChar (c : Char) : Char :=
  let n := c.toNat
  if 65 ≤ n && n ≤ 90 then Char.ofNat (n + 32)
  else if 192 ≤ n && n ≤ 222 && n != 215 then Char.ofNat (n + 32)
  else c

/-- `toUpperCase` on one character, inverse range of `jsLowerChar`. -/
def jsUpperChar (c : Char) : Char :=
  let n := c.toNat
  if 97 ≤ n && n ≤ 122 then Char.ofNat (n - 32)
  else if 224 ≤ n && n ≤ 254 && n != 247 then Char.ofNat (n - 32)
  else c

/-- `query.toLowerCase()`. -/
def jsLower (s : String) : String :=
  ⟨s.data.map jsLowerChar⟩

/-- The character list of the lower-cased query (the `lowerQ` local of
`getAIResponse`). -/
def lowerData (q : String) : List Char :=
  (jsLower q).data

/-- `String.prototype.trim`. -/
def jsTrim (l : List Char) : List Char :=
  ((l.dropWhile isSpaceJS).reverse.dropWhile isSpaceJS).reverse

/-- `String.prototype.length`: UTF-16 code units (astral code points
count twice). -/
def jsLen (l : List Char) : Nat :=
  l.foldr (fun c n => n + (if c.toNat ≥ 0x10000 then 2 else 1)) 0

/-- Does `needle` occur as a contiguous sublist of `hay`?  Models
`String.prototype.includes`. -/
def hasSub (needle : List Char) : List Char → Bool
  | [] => needle.isEmpty
  | c :: t => needle.isPrefixOf (c :: t) || hasSub needle t

/-- `lowerQ.includes(needle)` over the embedded character list. -/
def hasIncl (lq : List Char) (needle : String) : Bool :=
  hasSub needle.data lq

/-!  ## Data model

One structure per record shape built by the source.  Caller-supplied
fields that the core never inspects are collapsed into a single
`payload` string; fields that JavaScript only assigns later
(`resolvedBy`, `checkOut`, …) are `Option`s that start out `none`,
mirroring the absent object key.  -/

structure CommentE where
  text : String
  date : String
  author : String
deriving DecidableEq

structure DocRequest where
  id : String
  type : String
  studentName : String
  studentId : String
  grade : String
  email : String
  phone : String
  details : String
  status : String
  requestDate : String
  lastUpdate : String
  comments : List CommentE
deriving DecidableEq

structure Enrollment where
  id : String
  payload : String
  status : String
  requestDate : String
deriving DecidableEq

structure NurseVisit where
  id : String
  payload : String
  date : String
  status : String
deriving DecidableEq

structure Appointment where
  id : String
  payload : String
  status : String
  dateCreated : String
deriving DecidableEq

structure Alert where
  id : String
  payload : String
  status : String
  priority : String
  dateCreated : String
deriving DecidableEq

structure WLog where
  studentName : String
  hours : Nat
  description : String
  date : String
  evidenceUrl : Option String
deriving DecidableEq

structure Ticket where
  id : String
  payload : String
  status : String
  assignedTo : Option String
  dateCreated : String
  logs : List WLog
  resolvedBy : Option String
  resolvedDate : Option String
  dateClosed : Option String
deriving DecidableEq

structure Reservation where
  id : String
  payload : String
  status : String
  dateReserved : String
deriving DecidableEq

structure ParentMsg where
  id : String
  payload : String
  status : String
  dateSent : String
deriving DecidableEq

structure Visitor where
  id : String
  payload : String
  checkIn : String
  checkOut : Option String
  status : String
deriving DecidableEq

structure Incident where
  id : String
  payload : String
  dateReported : String
  status : String
deriving DecidableEq

structure NewsItem where
  id : String
  title : String
  message : String
  imageUrl : Option String
  date : String
  active : Bool
deriving DecidableEq

structure Config where
  schoolName : String
  academicYear : String
deriving DecidableEq

/-- The single serialized store document.  Collections present in the
fresh schema of `loadData` are plain lists; collections that the source
creates lazily (`if (!this.data.x) this.data.x = []`) are `Option`s whose
`none` models the absent key of an older persisted document. -/
structure Doc where
  solicitudes_documentos : List DocRequest
  matriculas : List Enrollment
  enfermeria_visitas : List NurseVisit
  tickets_soporte : List Ticket
  citas_orientacion : List Appointment
  inventario_biblioteca : List String
  usuarios : List String
  config : Config
  news : Option (List NewsItem)
  firstGreeting : Bool
  alertas_tempranas : Option (List Alert)
  reservas_biblioteca : Option (List Reservation)
  mensajes_padres : Option (List ParentMsg)
  seguridad_visitas : Option (List Visitor)
  seguridad_incidentes : Option (List Incident)
  techScores : Option (List (String × Nat))
deriving DecidableEq

/-- In-memory manager state: `data` is `this.data`, `storage` the
serialized document held by `localStorage` (`none` = nothing persisted),
`notes` the observable trace of `simulateNotification` calls
`(record id, event tag)`. -/
structure SMState where
  data : Doc
  storage : Option Doc
  notes : List (String × String)
deriving DecidableEq

/-- The freshly initialized document returned by `loadData` when nothing
is persisted.  The lazily-created collections are absent (`none`). -/
def freshDoc : Doc where
  solicitudes_documentos := []
  matriculas := []
  enfermeria_visitas := []
  tickets_soporte := []
  citas_orientacion := []
  inventario_biblioteca := []
  usuarios := []
  config := { schoolName := "Escuela Superior Vocacional", academicYear := "2025-2026" }
  news := some []
  firstGreeting := true
  alertas_tempranas := none
  reservas_biblioteca := none
  mensajes_padres := none
  seguridad_visitas := none
  seguridad_incidentes := none
  techScores := none

/-- `loadData`: parse the persisted document if present, else the fresh
schema. -/
def loadData : Option Doc → Doc
  | some d => d
  | none => freshDoc

/-- `saveData`: serialize `this.data` into `localStorage`. -/
def saveData (s : SMState) : SMState :=
  { s with storage := some s.data }

/-- `simulateNotification(record, event)` observed as an appended
`(record.id, event)` pair. -/
def notify (s : SMState) (id evt : String) : SMState :=
  { s with notes := s.notes ++ [(id, evt)] }

/-- State of a manager constructed when nothing is persisted. -/
def initState : SMState :=
  { data := loadData none, storage := none, notes := [] }

/-!  ## IdGenerator  -/

/-- Two-digit zero-padded numeral, as produced inside
`toISOString().slice(2,10)` for year-mod-100, month and day. -/
def pad2 (n : Nat) : String :=
  if n < 10 then "0" ++ Nat.repr n else Nat.repr n

/-- `String.prototype.padStart(3, '0')`. -/
def padStart3 (s : String) : String :=
  if s.length ≥ 3 then s else ⟨List.replicate (3 - s.length) '0' ++ s.data⟩

/-- `generateId(prefix)`: the current date enters as `yy`/`mm`/`dd`
(already reduced: `yy` is the year mod 100) and the draw
`Math.floor(Math.random() * 1000)` as `rnd`. -/
def generateId (pfx : String) (yy mm dd rnd : Nat) : String :=
  pfx ++ "-" ++ pad2 yy ++ pad2 mm ++ pad2 dd ++ "-" ++ padStart3 (Nat.repr rnd)

/-!  ## Record operations  -/

/-- Replace the first element satisfying `p` by its image under `f`:
the effect of mutating the object returned by `Array.prototype.find`. -/
def updateFirst (p : α → Bool) (f : α → α) : List α → List α
  | [] => []
  | x :: xs => if p x then f x :: xs else x :: updateFirst p f xs

structure DocPayload where
  type : String
  studentName : String
  studentId : String
  grade : String
  email : String
  phone : String
  details : String
deriving DecidableEq

/-- `createDocumentRequest(requestData)`. -/
def createDocumentRequest (p : DocPayload) (now : String) (yy mm dd rnd : Nat)
    (s : SMState) : SMState × DocRequest :=
  let id := generateId ("DOC") yy mm dd rnd
  let r : DocRequest :=
    { id := id, type := p.type, studentName := p.studentName,
      studentId := p.studentId, grade := p.grade, email := p.email,
      phone := p.phone, details := p.details, status := "pendiente",
      requestDate := now, lastUpdate := now, comments := [] }
  let s1 := saveData { s with data :=
    { s.data with solicitudes_documentos := s.data.solicitudes_documentos ++ [r] } }
  (notify s1 id ("created"), r)

/-- `getRequestById(id)`: first record of the collection with that id. -/
def getRequestById (id : String) (s : SMState) : Option DocRequest :=
  s.data.solicitudes_documentos.find? (fun r => r.id == id)

/-- `updateRequestStatus(id, newStatus, adminComment)`: locate, mutate in
place, persist, notify; absent id is a silent `false`.  The comment is
appended exactly when `adminComment` is truthy, i.e. non-empty. -/
def updateRequestStatus (id newStatus adminComment now : String)
    (s : SMState) : SMState × Bool :=
  match getRequestById id s with
  | none => (s, false)
  | some req =>
    let newComments :=
      if adminComment == "" then req.comments
      else req.comments ++ [{ text := adminComment, date := now, author := "Administrador" }]
    let req' : DocRequest :=
      { req with status := newStatus, lastUpdate := now, comments := newComments }
    let s1 := saveData { s with data :=
      { s.data with solicitudes_documentos :=
          updateFirst (fun r => r.id == id) (fun _ => req') s.data.solicitudes_documentos } }
    (notify s1 req'.id ("updated"), true)

/-- `createEnrollment(enrollmentData)`. -/
def createEnrollment (payload now : String) (yy mm dd rnd : Nat)
    (s : SMState) : SMState × Enrollment :=
  let id := generateId ("MAT") yy mm dd rnd
  let e : Enrollment := { id := id, payload := payload, status := "pendiente", requestDate := now }
  let s1 := saveData { s with data := { s.data with matriculas := s.data.matriculas ++ [e] } }
  (notify s1 id ("enrollment_created"), e)

/-- `registerNurseVisit(visitData)` (no notification in the source). -/
def registerNurseVisit (payload now : String) (yy mm dd rnd : Nat)
    (s : SMState) : SMState × NurseVisit :=
  let id := generateId ("NUR") yy mm dd rnd
  let v : NurseVisit := { id := id, payload := payload, date := now, status := "atendido" }
  let s1 := saveData { s with data :=
    { s.data with enfermeria_visitas := s.data.enfermeria_visitas ++ [v] } }
  (s1, v)

/-- `createCounselingAppointment(appointmentData)`. -/
def createCounselingAppointment (payload now : String) (yy mm dd rnd : Nat)
    (s : SMState) : SMState × Appointment :=
  let id := generateId ("CIT") yy mm dd rnd
  let a : Appointment := { id := id, payload := payload, status := "pendiente", dateCreated := now }
  let s1 := saveData { s with data :=
    { s.data with citas_orientacion := s.data.citas_orientacion ++ [a] } }
  (notify s1 id ("appointment_created"), a)

/-- `createEarlyAlert(alertData)`: initializes `alertas_tempranas` lazily. -/
def createEarlyAlert (payload now : String) (yy mm dd rnd : Nat)
    (s : SMState) : SMState × Alert :=
  let id := generateId ("ALT") yy mm dd rnd
  let a : Alert := { id := id, payload := payload, status := "activa",
                     priority := "alta", dateCreated := now }
  let cur := match s.data.alertas_tempranas with
    | none => []
    | some l => l
  let s1 := saveData { s with data := { s.data with alertas_tempranas := some (cur ++ [a]) } }
  (s1, a)

/-- `createTicket(ticketData)`. -/
def createTicket (payload now : String) (yy mm dd rnd : Nat)
    (s : SMState) : SMState × Ticket :=
  let id := generateId ("TICK") yy mm dd rnd
  let t : Ticket := { id := id, payload := payload, status := "abierto",
                      assignedTo := none, dateCreated := now, logs := [],
                      resolvedBy := none, resolvedDate := none, dateClosed := none }
  let s1 := saveData { s with data := { s.data with tickets_soporte := s.data.tickets_soporte ++ [t] } }
  (notify s1 id ("ticket_created"), t)

/-- `logWBLHours(logData)`: append a log entry to the ticket and
optionally transition it to `resuelto`. -/
def logWBLHours (ticketId studentName : String) (hours : Nat)
    (description now : String) (evidenceUrl : Option String)
    (markCompleted : Bool) (s : SMState) : SMState × Bool :=
  match s.data.tickets_soporte.find? (fun t => t.id == ticketId) with
  | none => (s, false)
  | some _ =>
    let f : Ticket → Ticket := fun t =>
      let t1 := { t with logs := t.logs ++
        [{ studentName := studentName, hours := hours, description := description,
           date := now, evidenceUrl := evidenceUrl }] }
      if markCompleted then { t1 with status := "resuelto", dateClosed := some now } else t1
    let s1 := saveData { s with data :=
      { s.data with tickets_soporte := updateFirst (fun t => t.id == ticketId) f s.data.tickets_soporte } }
    (s1, true)

/-- `reserveBook(reservationData)`: initializes `reservas_biblioteca` lazily. -/
def reserveBook (payload now : String) (yy mm dd rnd : Nat)
    (s : SMState) : SMState × Reservation :=
  let id := generateId ("RES") yy mm dd rnd
  let r : Reservation := { id := id, payload := payload, status := "pendiente", dateReserved := now }
  let cur := match s.data.reservas_biblioteca with
    | none => []
    | some l => l
  let s1 := saveData { s with data := { s.data with reservas_biblioteca := some (cur ++ [r]) } }
  (s1, r)

/-- `sendParentMessage(messageData)`: initializes `mensajes_padres` lazily. -/
def sendParentMessage (payload now : String) (yy mm dd rnd : Nat)
    (s : SMState) : SMState × ParentMsg :=
  let id := generateId ("MSG") yy mm dd rnd
  let m : ParentMsg := { id := id, payload := payload, status := "enviado", dateSent := now }
  let cur := match s.data.mensajes_padres with
    | none => []
    | some l => l
  let s1 := saveData { s with data := { s.data with mensajes_padres := some (cur ++ [m]) } }
  (notify s1 id ("message_sent"), m)

/-- `registerVisitor(visitorData)`: initializes `seguridad_visitas` lazily. -/
def registerVisitor (payload now : String) (yy mm dd rnd : Nat)
    (s : SMState) : SMState × Visitor :=
  let id := generateId ("VISIT") yy mm dd rnd
  let v : Visitor := { id := id, payload := payload, checkIn := now,
                       checkOut := none, status := "active" }
  let cur := match s.data.seguridad_visitas with
    | none => []
    | some l => l
  let s1 := saveData { s with data := { s.data with seguridad_visitas := some (cur ++ [v]) } }
  (s1, v)

/-- `checkoutVisitor(visitorId)`: terminal transition, no-op `false` when
the collection is missing, the id is absent, or the visit is not active. -/
def checkoutVisitor (visitorId now : String) (s : SMState) : SMState × Bool :=
  match s.data.seguridad_visitas with
  | none => (s, false)
  | some l =>
    match l.find? (fun v => v.id == visitorId) with
    | none => (s, false)
    | some v =>
      if v.status == "active" then
        let f : Visitor → Visitor := fun u =>
          { u with checkOut := some now, status := "completed" }
        let s1 := saveData { s with data :=
          { s.data with seguridad_visitas := some (updateFirst (fun u => u.id == visitorId) f l) } }
        (s1, true)
      else (s, false)

/-- `reportIncident(incidentData)`: initializes `seguridad_incidentes` lazily. -/
def reportIncident (payload now : String) (yy mm dd rnd : Nat)
    (s : SMState) : SMState × Incident :=
  let id := generateId ("INC") yy mm dd rnd
  let i : Incident := { id := id, payload := payload, dateReported := now, status := "investigating" }
  let cur := match s.data.seguridad_incidentes with
    | none => []
    | some l => l
  let s1 := saveData { s with data := { s.data with seguridad_incidentes := some (cur ++ [i]) } }
  (notify s1 id ("incident_reported"), i)

/-- `addNews(newsData)`: initializes `news` lazily. -/
def addNews (title message : String) (imageUrl : Option String) (now : String)
    (yy mm dd rnd : Nat) (s : SMState) : SMState × NewsItem :=
  let id := generateId ("NEWS") yy mm dd rnd
  let n : NewsItem := { id := id, title := title, message := message,
                        imageUrl := imageUrl, date := now, active := true }
  let cur := match s.data.news with
    | none => []
    | some l => l
  let s1 := saveData { s with data := { s.data with news := some (cur ++ [n]) } }
  (s1, n)

/-- `deleteNews(id)`: `false` only when the `news` key is missing;
otherwise filter out every item with the id and report `true`. -/
def deleteNews (id : String) (s : SMState) : SMState × Bool :=
  match s.data.news with
  | none => (s, false)
  | some l =>
    let s1 := saveData { s with data :=
      { s.data with news := some (l.filter (fun n => n.id != id)) } }
    (s1, true)

/-- `addTicket(ticket)`: push a caller-built ticket. -/
def addTicket (t : Ticket) (s : SMState) : SMState × Ticket :=
  let s1 := saveData { s with data :=
    { s.data with tickets_soporte := s.data.tickets_soporte ++ [t] } }
  (s1, t)

/-- `updateTicket(updatedTicket)`: replace the first ticket with the same
id wholesale. -/
def updateTicket (t : Ticket) (s : SMState) : SMState × Ticket :=
  match s.data.tickets_soporte.find? (fun u => u.id == t.id) with
  | none => (s, t)
  | some _ =>
    let s1 := saveData { s with data :=
      { s.data with tickets_soporte :=
          updateFirst (fun u => u.id == t.id) (fun _ => t) s.data.tickets_soporte } }
    (s1, t)

/-- `resolveTicket(ticketId, techName)`: unconditionally overwrite
status, `resolvedBy` and `resolvedDate` of the first ticket with the id;
return the mutated ticket, or `none` (JavaScript `undefined`) when the
id is absent. -/
def resolveTicket (ticketId techName now : String) (s : SMState) : SMState × Option Ticket :=
  match s.data.tickets_soporte.find? (fun t => t.id == ticketId) with
  | none => (s, none)
  | some t =>
    let t' : Ticket :=
      { t with status := "resuelto", resolvedBy := some techName, resolvedDate := some now }
    let s1 := saveData { s with data :=
      { s.data with tickets_soporte :=
          updateFirst (fun u => u.id == ticketId) (fun _ => t') s.data.tickets_soporte } }
    (s1, some t')

/-- `saveTechScore(techName, score)`: keyed map stored as an association
list, initialized lazily. -/
def saveTechScore (techName : String) (score : Nat) (s : SMState) : SMState :=
  let cur := match s.data.techScores with
    | none => []
    | some l => l
  let upd := if cur.any (fun p => p.1 == techName)
    then updateFirst (fun p => p.1 == techName) (fun p => (p.1, score)) cur
    else cur ++ [(techName, score)]
  saveData { s with data := { s.data with techScores := some upd } }

/-!  ## ConversationEngine: months table and academic calendar  -/

/-- The `months` object literal of `getAIResponse`, in insertion order
(`Object.keys` enumerates this order, so `septiembre` is found before
`setiembre` when resolving a month number back to a name). -/
def monthNames : List (String × Nat) :=
  [("enero", 1), ("febrero", 2), ("marzo", 3), ("abril", 4), ("mayo", 5), ("junio", 6),
   ("julio", 7), ("agosto", 8), ("septiembre", 9), ("setiembre", 9), ("octubre", 10),
   ("noviembre", 11), ("diciembre", 12)]

/-- `months[monthName]`. -/
def monthVal (name : String) : Nat :=
  match monthNames.find? (fun p => p.1 == name) with
  | some p => p.2
  | none => 0

/-- `Object.keys(months).find(m => months[m] === v)`. -/
def monthKeyName (v : Nat) : String :=
  match monthNames.find? (fun p => p.2 == v) with
  | some p => p.1
  | none => ""

/-- A calendar entry: a point event `{day, month, title}` or a range
event `{start: {day, month}, end: {day, month}, title}`. -/
inductive CalEvent where
  | point (day month : Nat) (title : String)
  | range (sd sm ed em : Nat) (title : String)
deriving DecidableEq

/-- The `calendarEvents` array. -/
def calendarEvents : List CalEvent :=
  [.point 13 2 ("Reuniones profesionales de facultad y equipo (tarde)"),
   .point 16 2 ("Día festivo"),
   .point 19 2 ("Assessment"),
   .point 2 3 ("Día festivo"),
   .point 16 3 ("Assessment"),
   .point 20 3 ("Reuniones profesionales (tarde)"),
   .point 23 3 ("Día festivo"),
   .point 27 3 ("Entrega del informe de progreso académico"),
   .point 2 4 ("Receso académico (personal docente y no docente)"),
   .point 3 4 ("Feriado"),
   .range 13 4 7 5 ("Assessment (período completo)"),
   .range 18 5 22 5 ("Semana de la Educación"),
   .point 22 5 ("Receso académico"),
   .point 25 5 ("Feriado"),
   .point 26 5 ("Evaluaciones finales"),
   .point 27 5 ("Evaluaciones finales"),
   .point 29 5 ("Entrega del informe de progreso académico")]

/-!  ## The date regular expression

`/(?:\b|^)(?:el\s*)?(\d{1,2})\s*(?:de\s*)?(enero|febrero|…|diciembre)\b/`
is embedded as a backtracking matcher specialised to this pattern.
Greedy quantifiers only ever need one backtracking point each: `\s*`
never steals a digit or a letter, `el`/`de` are all-or-nothing, and
`\d{1,2}` retries with one digit when two fail.  -/

/-- Try the month alternation as a literal prefix.  The thirteen names are
pairwise non-prefix, so at most one alternative can match at a position. -/
def tryMonths : List (String × Nat) → List Char → Option (String × List Char)
  | [], _ => none
  | (nm, _) :: rest, cs =>
    if nm.data.isPrefixOf cs then some (nm, cs.drop nm.data.length)
    else tryMonths rest cs

/-- `\b` after a month name: the name ends in a word character, so the
boundary holds exactly when the next character is absent or non-word. -/
def wordBoundAfter : List Char → Bool
  | [] => true
  | c :: _ => !(isWordChar c)

/-- Month alternation followed by `\b`, keeping the day already parsed. -/
def monthBound (day : Nat) (cs : List Char) : Option (Nat × String) :=
  match tryMonths monthNames cs with
  | some (nm, rest) => if wordBoundAfter rest then some (day, nm) else none
  | none => none

/-- `\s*(?:de\s*)?` and the month: try the greedy `de` branch first and
fall back to omitting it, as the regex engine does. -/
def afterDay (day : Nat) (cs : List Char) : Option (Nat × String) :=
  let cs1 := cs.dropWhile isSpaceJS
  let withDe :=
    if ("de").data.isPrefixOf cs1 then
      monthBound day ((cs1.drop 2).dropWhile isSpaceJS)
    else none
  match withDe with
  | some r => some r
  | none => monthBound day cs1

/-- `(\d{1,2})` (greedy: two digits first, backtracking to one) and the
tail of the pattern; `parseInt` of the captured digits gives the day. -/
def matchDayMonth : List Char → Option (Nat × String)
  | [] => none
  | c1 :: t1 =>
    if isDigitChar c1 then
      match t1 with
      | c2 :: t2 =>
        if isDigitChar c2 then
          match afterDay (10 * (c1.toNat - 48) + (c2.toNat - 48)) t2 with
          | some r => some r
          | none => afterDay (c1.toNat - 48) t1
        else afterDay (c1.toNat - 48) t1
      | [] => afterDay (c1.toNat - 48) []
    else none

/-- `(?:el\s*)?` (greedy) and the rest of the pattern at one position. -/
def matchDateCore (cs : List Char) : Option (Nat × String) :=
  let withEl :=
    if ("el").data.isPrefixOf cs then
      matchDayMonth ((cs.drop 2).dropWhile isSpaceJS)
    else none
  match withEl with
  | some r => some r
  | none => matchDayMonth cs

/-- Leftmost-match scan at interior positions: `(?:\b|^)` demands a word
boundary there (`^` only matches at position 0). -/
def scanDateAux : Char → List Char → Option (Nat × String)
  | _, [] => none
  | prev, c :: t =>
    match (if isWordChar prev != isWordChar c then matchDateCore (c :: t) else none) with
    | some r => some r
    | none => scanDateAux c t

/-- `lowerQ.match(/(?:\b|^)(?:el\s*)?(\d{1,2})\s*(?:de\s*)?(enero|…)\b/)`:
the parsed day and the captured month name of the leftmost match. -/
def findDateMatch : List Char → Option (Nat × String)
  | [] => none
  | c :: t =>
    match matchDateCore (c :: t) with
    | some r => some r
    | none => scanDateAux c t

/-!  ## Date branch of `getAIResponse`  -/

/-- `afterStart && beforeEnd`: the queried (month, day) lies in the
inclusive range under month-then-day comparison. -/
def rangeHit (day month sd sm ed em : Nat) : Bool :=
  (decide (sm < month) || (month == sm && decide (sd ≤ day))) &&
  (decide (month < em) || (month == em && decide (day ≤ ed)))

/-- The label pushed for a matching range event: title plus formatted span. -/
def rangeLabel (title : String) (sd sm ed em : Nat) : String :=
  title ++ " (del " ++ Nat.repr sd ++ " de " ++ monthKeyName sm ++ " al " ++
    Nat.repr ed ++ " de " ++ monthKeyName em ++ ")"

/-- The `matches` array built by the date branch, in calendar order. -/
def dateMatches (day month : Nat) : List String :=
  calendarEvents.foldr (fun ev acc =>
    match ev with
    | .point d m title => if d == day && m == month then title :: acc else acc
    | .range sd sm ed em title =>
      if rangeHit day month sd sm ed em then rangeLabel title sd sm ed em :: acc else acc) []

/-- The text returned for a matched date: the matching events joined with
`; `, or the fixed no-events sentence. -/
def dateResponse (day : Nat) (monthName : String) : String :=
  if (dateMatches day (monthVal monthName)).isEmpty then
    "📅 No hay eventos listados para el " ++ Nat.repr day ++ " de " ++ monthName ++
      " en el calendario escolar. ¿Deseas ver el calendario completo?"
  else
    "📅 El " ++ Nat.repr day ++ " de " ++ monthName ++ ": " ++
      String.intercalate ("; ") (dateMatches day (monthVal monthName)) ++ "."

/-- The specific-date rule. -/
def dateBranch (lq : List Char) : Option String :=
  match findDateMatch lq with
  | none => none
  | some (day, monthName) => some (dateResponse day monthName)

/-!  ## Month-only branch  -/

/-- Month alternation with the trailing `\b` of `/\b(enero|…)\b/`. -/
def tryMonthsB (cs : List Char) : Option String :=
  match tryMonths monthNames cs with
  | some (nm, rest) => if wordBoundAfter rest then some nm else none
  | none => none

/-- Interior scan.  A month name starts with a word character, so the
leading `\b` reduces to "previous character is non-word" whenever the
alternation can match at all. -/
def scanMonthAux : Char → List Char → Option String
  | _, [] => none
  | prev, c :: t =>
    match (if isWordChar prev then none else tryMonthsB (c :: t)) with
    | some nm => some nm
    | none => scanMonthAux c t

/-- `lowerQ.match(/\b(enero|febrero|…|diciembre)\b/)`. -/
def findMonth : List Char → Option String
  | [] => none
  | c :: t =>
    match tryMonthsB (c :: t) with
    | some nm => some nm
    | none => scanMonthAux c t

/-- The alternatives of the explicit-keyword regular expression, in order. -/
def kwList : List String :=
  ["qué", "que hay", "qué hay", "evento", "eventos", "actividad", "actividades", "en"]

/-- `\b` after a matched alternative.  `é` is not a word character, so an
alternative ending in `é` (`qué`) needs a word character right after it. -/
def kwBoundAfter (k : String) (rest : List Char) : Bool :=
  let lastW := match k.data.getLast? with
    | some c => isWordChar c
    | none => false
  let nextW := match rest with
    | [] => false
    | c :: _ => isWordChar c
  lastW != nextW

/-- Try every alternative at one position (the engine backtracks through
the alternation when a trailing `\b` fails, e.g. `evento` inside `eventos`). -/
def tryKws : List String → List Char → Bool
  | [], _ => false
  | k :: rest, cs =>
    (k.data.isPrefixOf cs && kwBoundAfter k (cs.drop k.data.length)) || tryKws rest cs

/-- Interior scan; every alternative starts with a word character, so the
leading `\b` reduces to "previous character is non-word". -/
def kwScanAux : Char → List Char → Bool
  | _, [] => false
  | prev, c :: t => (!(isWordChar prev) && tryKws kwList (c :: t)) || kwScanAux c t

/-- `/\b(qué|que hay|qué hay|evento|eventos|actividad|actividades|en)\b/.test(lowerQ)`. -/
def kwTest : List Char → Bool
  | [] => false
  | c :: t => tryKws kwList (c :: t) || kwScanAux c t

/-- `• <day> de <month>: <title>` bullet of the month listing. -/
def monthBullet (monthName : String) (d : Nat) (title : String) : String :=
  "• " ++ Nat.repr d ++ " de " ++ monthName ++ ": " ++ title

/-- Bullet of a range event covering the month. -/
def rangeBullet (title : String) (sd sm ed em : Nat) : String :=
  "• " ++ title ++ " (del " ++ Nat.repr sd ++ " de " ++ monthKeyName sm ++ " al " ++
    Nat.repr ed ++ " de " ++ monthKeyName em ++ ")"

/-- The coarser covering test of the month listing: strictly between the
endpoint months, or equal to either endpoint (days ignored). -/
def coversMonth (monthNum sm em : Nat) : Bool :=
  (decide (sm < monthNum) && decide (monthNum < em)) || monthNum == sm || monthNum == em

/-- The `results` array of the month listing, in calendar order. -/
def monthResults (monthName : String) (monthNum : Nat) : List String :=
  calendarEvents.foldr (fun ev acc =>
    match ev with
    | .point d m title => if m == monthNum then monthBullet monthName d title :: acc else acc
    | .range sd sm ed em title =>
      if coversMonth monthNum sm em then rangeBullet title sd sm ed em :: acc else acc) []

/-- `monthName.charAt(0).toUpperCase() + monthName.slice(1)`. -/
def capFirst (s : String) : String :=
  match s.data with
  | [] => ""
  | c :: t => ⟨jsUpperChar c :: t⟩

/-- Apply the month-only query?  Short trimmed input (≤ 12 UTF-16 units),
an explicit query keyword, or the literal substring `en <month>`. -/
def monthGuard (query : String) (lq : List Char) (monthName : String) : Bool :=
  decide (jsLen (jsTrim query.data) ≤ 12) || kwTest lq || hasIncl lq ("en " ++ monthName)

/-- The text of the month listing: header plus bullets, or the fixed
no-events sentence. -/
def monthListing (monthName : String) : String :=
  if (monthResults monthName (monthVal monthName)).isEmpty then
    "📅 No se encontraron eventos listados para " ++ monthName ++
      ". ¿Quieres ver el calendario completo?"
  else
    "📅 <strong>Eventos de " ++ capFirst monthName ++ "</strong>:<br><br>" ++
      String.intercalate ("<br>") (monthResults monthName (monthVal monthName))

/-- The month-only rule: when a bare month name occurs and the guard
holds, list the events of that month; otherwise fall through (`none`). -/
def monthBranch (query : String) (lq : List Char) : Option String :=
  match findMonth lq with
  | none => none
  | some monthName =>
    if monthGuard query lq monthName then some (monthListing monthName) else none

/-!  ## Greeting state and the fixed rule cascade  -/

/-- The distinguished first-greeting introduction. -/
def firstGreetingText : String :=
  "¡Hola! 👋 ¡Qué gusto saludarte! 😊 Soy el Asistente PCB de la Escuela Superior Vocacional Pablo Colón Berdecia. Estoy aquí para ayudarte con cualquier duda que tengas sobre nuestros servicios, horarios o cualquier información de la escuela. ¿En qué puedo servirte hoy?"

/-- The `greetings` pool for subsequent greetings. -/
def greetingsPool : List String :=
  ["¡Hola de nuevo! 😊 ¿En qué puedo ayudarte hoy?",
   "¡Buenos días/tardes! 🌟 ¿En qué te puedo asistir?",
   "¡Hey! 👋 ¡Me alegra verte de nuevo! ¿Qué necesitas saber?",
   "¡Hola! 😊 ¿Tienes alguna pregunta sobre la escuela?"]

/-- The `farewells` pool. -/
def farewellsPool : List String :=
  ["¡Adiós! 👋 Fue un placer ayudarte. ¡Que tengas un excelente día!",
   "¡Hasta luego! 😊 Si necesitas algo más, aquí estaré.",
   "¡Bye! 👋 ¡Que te vaya muy bien en tu día!",
   "¡Nos vemos! 🌟 Fue un gusto asistirte."]

/-- The `thanks` pool. -/
def thanksPool : List String :=
  ["¡De nada! 😊 ¡Para eso estoy aquí! ¿Hay algo más en lo que pueda ayudarte?",
   "¡Con mucho gusto! 😄 Si tienes más preguntas, no dudes en preguntar.",
   "¡Para eso estamos! 😊 ¿Necesitas algo más?",
   "¡De nada! 🙌 Estoy para servirte. ¿En qué más puedo ayudarte?"]

/-- The affirmative follow-up pool. -/
def affirmPool : List String :=
  ["¡Perfecto! 😊 ¿Hay algo más en lo que pueda ayudarte?",
   "¡Genial! 😄 ¿Tienes alguna otra pregunta?",
   "¡Excelente! 👍 ¿En qué más puedo asistirte?",
   "¡Qué bueno! 🎉 ¿Necesitas más información?"]

/-- The negative follow-up pool (three entries). -/
def negPool : List String :=
  ["¡De nada! 😊 ¡Que tengas un excelente día! Si necesitas algo más, aquí estaré.",
   "¡Para eso estoy! 🙌 ¡Que te vaya muy bien!",
   "¡Fue un placer ayudarte! 👋 ¡hasta pronto!"]

/-- The small-talk (`cómo estás`) pool, twelve entries. -/
def comoEstasPool : List String :=
  ["¡Estoy bien, gracias! ¿Cómo van tus clases hoy? ¿Necesitas ayuda con alguna materia?",
   "¡Todo en orden! ¿Tienes alguna duda sobre tareas, horarios o el calendario escolar?",
   "¡Listo para ayudar! ¿Hay alguna asignatura con la que quieras apoyo o información?",
   "¡Muy bien! ¿Te interesa revisar alguna tarea, evento escolar o recurso académico ahora?",
   "¡Bien, gracias! ¿Prefieres que te muestre recursos de estudio, el calendario o el menú del comedor?",
   "Me encuentro listo para asistirte. ¿Quieres ayuda con una tarea, preparar un examen o consultar una fecha importante?",
   "¡Todo tranquilo por aquí! ¿Estás buscando información sobre tus clases, el horario o alguna actividad escolar?",
   "Perfecto, gracias. ¿Te gustaría revisar las últimas novedades de la escuela o tus próximas evaluaciones?",
   "¡Listo para apoyar! ¿Necesitas consejos de estudio, material de apoyo o ayuda para contactar a un profesor?",
   "Muy bien, gracias. ¿Quieres que busque eventos en el calendario, horarios de la escuela o información de matrícula?",
   "Estoy bien, ¿prefieres un tono más formal o más informal en mis respuestas? Puedo adaptarme al estilo académico que prefieras.",
   "¡Gracias por preguntar! ¿Te gustaría que te recuerde tareas pendientes o eventos próximos del colegio?"]

/-- The default fallback sentence of the cascade. -/
def fallbackText : String :=
  "Lo siento to tengo una contestacion a eso, todavia soy una ia en desarrollo."

/-- `array[Math.floor(Math.random() * array.length)]`, with the draw
exposed as an arbitrary natural `rnd` reduced modulo the pool size. -/
def listPick (l : List String) (rnd : Nat) : String :=
  l.getD (rnd % l.length) ""

/-- The greeting test. -/
def gGreet (lq : List Char) : Bool :=
  hasIncl lq ("hola") || hasIncl lq ("buenos") || hasIncl lq ("buenas") ||
  hasIncl lq ("hey") || hasIncl lq ("hi")

/-!  One named guard per rule of the cascade after the greeting, in
source order.  -/

def gFarewell (lq : List Char) : Bool :=
  hasIncl lq ("adiós") || hasIncl lq ("adios") || hasIncl lq ("bye") ||
  hasIncl lq ("hasta luego") || hasIncl lq ("nos vemos")

def gThanks (lq : List Char) : Bool :=
  hasIncl lq ("gracias") || hasIncl lq ("thank") || hasIncl lq ("te lo agradezco") ||
  hasIncl lq ("muchas gracias")

def gMatricula (lq : List Char) : Bool :=
  hasIncl lq ("matrícula") || hasIncl lq ("matricula") || hasIncl lq ("inscribirme") ||
  hasIncl lq ("inscripción")

def gSolicitudDoc (lq : List Char) : Bool :=
  (hasIncl lq ("solicitud") || hasIncl lq ("solicitar")) &&
  (hasIncl lq ("documento") || hasIncl lq ("certificación") ||
   hasIncl lq ("transcripción") || hasIncl lq ("record"))

def gTecnico (lq : List Char) : Bool :=
  (hasIncl lq ("servicio") && hasIncl lq ("técnico")) || hasIncl lq ("soporte técnico") ||
  hasIncl lq ("mantenimiento")

def gEnfermeria (lq : List Char) : Bool :=
  hasIncl lq ("enfermería") || hasIncl lq ("enfermeria") || hasIncl lq ("enfermero") ||
  hasIncl lq ("médico") || hasIncl lq ("medico") || hasIncl lq ("salud")

def gOrientacion (lq : List Char) : Bool :=
  hasIncl lq ("orientación") || hasIncl lq ("orientacion") || hasIncl lq ("consejero") ||
  hasIncl lq ("psicólogo") || hasIncl lq ("apoyo")

def gBiblioteca (lq : List Char) : Bool :=
  hasIncl lq ("biblioteca") || hasIncl lq ("libro") || hasIncl lq ("préstamo") ||
  hasIncl lq ("prestamo")

def gComedor (lq : List Char) : Bool :=
  hasIncl lq ("comedor") || hasIncl lq ("almuerzo") || hasIncl lq ("comida") ||
  hasIncl lq ("desayuno")

def gPortalPadres (lq : List Char) : Bool :=
  hasIncl lq ("portal") &&
  (hasIncl lq ("padres") || hasIncl lq ("familia") || hasIncl lq ("padre"))

def gSeguridad (lq : List Char) : Bool :=
  hasIncl lq ("seguridad") || hasIncl lq ("visita") || hasIncl lq ("visitante") ||
  hasIncl lq ("incidente")

def gDashboard (lq : List Char) : Bool :=
  (hasIncl lq ("dashboard") || hasIncl lq ("evidencia") || hasIncl lq ("seguimiento")) &&
  (hasIncl lq ("académico") || hasIncl lq ("academic"))

def gCorreos (lq : List Char) : Bool :=
  hasIncl lq ("correos") &&
  (hasIncl lq ("maestro") || hasIncl lq ("profesor") || hasIncl lq ("teacher") ||
   hasIncl lq ("electrónico"))

def gTeams (lq : List Char) : Bool :=
  hasIncl lq ("microsoft") && hasIncl lq ("teams")

def gPowerDe (lq : List Char) : Bool :=
  hasIncl lq ("power") && hasIncl lq ("de")

def gIgs (lq : List Char) : Bool :=
  hasIncl lq ("calcular") &&
  (hasIncl lq ("igs") || hasIncl lq ("índice") || hasIncl lq ("indice") ||
   hasIncl lq ("promedio"))

def gDeportes (lq : List Char) : Bool :=
  hasIncl lq ("deporte") || hasIncl lq ("deportes") || hasIncl lq ("athlet") ||
  hasIncl lq ("ejercicio")

def gCapacidades (lq : List Char) : Bool :=
  hasIncl lq ("qué puedes hacer") || hasIncl lq ("que puedes hacer") || hasIncl lq ("  ") ||
  hasIncl lq ("que haces") || hasIncl lq ("para qué sirve") || hasIncl lq ("para que sirve") ||
  hasIncl lq ("cómo me ayudas") || hasIncl lq ("como me ayudas") || hasIncl lq ("qué sabes") ||
  hasIncl lq ("que sabes") || hasIncl lq ("qué servicios") || hasIncl lq ("que servicios") ||
  hasIncl lq ("dime qué puedes") || hasIncl lq ("dime que puedes")

def gQuienEres (lq : List Char) : Bool :=
  hasIncl lq ("qué es") || hasIncl lq ("qué es") || hasIncl lq ("quien eres") ||
  hasIncl lq ("quién eres") || hasIncl lq ("qué haces") || hasIncl lq ("para qué")

def gUbicacion (lq : List Char) : Bool :=
  hasIncl lq ("dónde está") || hasIncl lq ("donde está") || hasIncl lq ("ubicación") ||
  hasIncl lq ("dirección") || hasIncl lq ("direccion")

def gContacto (lq : List Char) : Bool :=
  hasIncl lq ("teléfono") || hasIncl lq ("telefono") || hasIncl lq ("llamar") ||
  hasIncl lq ("contacto") || hasIncl lq ("correo")

def gHorario (lq : List Char) : Bool :=
  hasIncl lq ("horario") || hasIncl lq ("hora") || hasIncl lq ("cuando")

def gInicioClases (lq : List Char) : Bool :=
  hasIncl lq ("cuándo empieza") || hasIncl lq ("cuando empieza") ||
  (hasIncl lq ("inicio") &&
   (hasIncl lq ("clase") || hasIncl lq ("curso") || hasIncl lq ("año")))

def gServicios (lq : List Char) : Bool :=
  hasIncl lq ("servicio") &&
  (hasIncl lq ("qué") || hasIncl lq ("cuales") || hasIncl lq ("cuáles") ||
   hasIncl lq ("tienes") || hasIncl lq ("ofrec"))

def gEstado (lq : List Char) : Bool :=
  hasIncl lq ("estado") &&
  (hasIncl lq ("solicitud") || hasIncl lq ("ticket") || hasIncl lq ("pedido"))

def gCuantoTarda (lq : List Char) : Bool :=
  hasIncl lq ("cuánto") &&
  (hasIncl lq ("tarda") || hasIncl lq ("demora") || hasIncl lq ("tiempo"))

def gAyuda (lq : List Char) : Bool :=
  hasIncl lq ("ayuda") || hasIncl lq ("help") || hasIncl lq ("auxilio") ||
  hasIncl lq ("socorro")

def gConfundido (lq : List Char) : Bool :=
  hasIncl lq ("no entiendo") || hasIncl lq ("confundido") || hasIncl lq ("perdido") ||
  hasIncl lq ("ayúdame") || hasIncl lq ("ayudame")

def gAfirm (lq : List Char) : Bool :=
  hasIncl lq ("sí") || hasIncl lq ("si") || hasIncl lq ("también") ||
  hasIncl lq ("tambien") || hasIncl lq ("perfecto") || hasIncl lq ("ok") ||
  hasIncl lq ("de acuerdo")

def gNeg (lq : List Char) : Bool :=
  hasIncl lq ("no") &&
  (hasIncl lq ("gracias") || hasIncl lq ("nada") || hasIncl lq ("otro"))

def gComoEstas (lq : List Char) : Bool :=
  hasIncl lq ("cómo estás") || hasIncl lq ("como estás") || hasIncl lq ("qué tal") ||
  hasIncl lq ("que tal") || hasIncl lq ("como te va") || hasIncl lq ("qué onda") ||
  hasIncl lq ("que onda") || hasIncl lq ("qué pasa") || hasIncl lq ("que pasa")

def gNombre (lq : List Char) : Bool :=
  hasIncl lq ("tu nombre") || hasIncl lq ("cómo te llamas") || hasIncl lq ("como te llamas")

def gClima (lq : List Char) : Bool :=
  hasIncl lq ("clima") || hasIncl lq ("tiempo") || hasIncl lq ("llover") ||
  hasIncl lq ("sol")

def gCalendario (lq : List Char) : Bool :=
  hasIncl lq ("calendario") || hasIncl lq ("fecha") || hasIncl lq ("fechas importantes") ||
  hasIncl lq ("dates") || hasIncl lq ("agenda")

def gAssessment (lq : List Char) : Bool :=
  hasIncl lq ("assessment") || hasIncl lq ("evaluación") || hasIncl lq ("evaluacion") ||
  hasIncl lq ("examen")

def gFeriado (lq : List Char) : Bool :=
  hasIncl lq ("feriado") || hasIncl lq ("día festivo") || hasIncl lq ("dia festivo") ||
  hasIncl lq ("festivo") || hasIncl lq ("libre")

def gReceso (lq : List Char) : Bool :=
  hasIncl lq ("receso") || hasIncl lq ("descanso") || hasIncl lq ("vacaciones")

def gInforme (lq : List Char) : Bool :=
  hasIncl lq ("informe") || hasIncl lq ("reporte") || hasIncl lq ("progreso") ||
  hasIncl lq ("boleta") || hasIncl lq ("notas")

def gEducacion (lq : List Char) : Bool :=
  hasIncl lq ("semana de la educación") || hasIncl lq ("semana educativa") ||
  hasIncl lq ("educación")

def gFinales (lq : List Char) : Bool :=
  hasIncl lq ("evaluación final") || hasIncl lq ("evaluaciones finales") ||
  hasIncl lq ("examen final") || hasIncl lq ("finales")

def gFebreroEv (lq : List Char) : Bool :=
  hasIncl lq ("febrero") &&
  (hasIncl lq ("qué hay") || hasIncl lq ("que hay") || hasIncl lq ("evento") ||
   hasIncl lq ("actividad"))

def gMarzoEv (lq : List Char) : Bool :=
  hasIncl lq ("marzo") &&
  (hasIncl lq ("qué hay") || hasIncl lq ("que hay") || hasIncl lq ("evento") ||
   hasIncl lq ("actividad"))

def gAbrilEv (lq : List Char) : Bool :=
  hasIncl lq ("abril") &&
  (hasIncl lq ("qué hay") || hasIncl lq ("que hay") || hasIncl lq ("evento") ||
   hasIncl lq ("actividad"))

def gMayoEv (lq : List Char) : Bool :=
  hasIncl lq ("mayo") &&
  (hasIncl lq ("qué hay") || hasIncl lq ("que hay") || hasIncl lq ("evento") ||
   hasIncl lq ("actividad"))

/-- The cascade after the greeting rule: each guard in source order with
its fixed response or pool draw, ending in the default fallback. -/
def fixedResp (lq : List Char) (rnd : Nat) : String :=
  if gFarewell lq then listPick farewellsPool rnd
  else if gThanks lq then listPick thanksPool rnd
  else if gMatricula lq then
    "Para realizar tu matrícula, te llevo a la sección correspondiente 👉 <a href=\x27matricula.html\x27>Matrícula Online</a>. Allí podrás completar el formulario de inscripción de forma fácil y rápida. ¿Necesitas ayuda con algo más?"
  else if gSolicitudDoc lq then
    "Por supuesto, puedo ayudarte con eso 📄. Te llevo a la sección de solicitudes 👉 <a href=\x27solicitudes.html\x27>Solicitud de Documentos</a>. Allí puedes pedir certificaciones, transcripciones y más. ¿Te gustaría saber algo más?"
  else if gTecnico lq then
    "Para soporte técnico y mantenimiento de equipos, visita nuestra sección 👉 <a href=\x27servicios-tecnicos.html\x27>Servicios Técnicos</a>. Nuestro equipo te ayudará con cualquier problema de tecnología. ¿Hay algo específico que necesites?"
  else if gEnfermeria lq then
    "Para atención de enfermería y servicios de salud 👉 <a href=\x27enfermeria.html\x27>Enfermería</a>. Tenemos personal capacitado para atender urgencias básicas y administrar medicamentos con autorización. ¿Necesitas más información?"
  else if gOrientacion lq then
    "Para orientación académica y apoyo psicológico 👉 <a href=\x27orientacion.html\x27>Orientación</a>. Nuestros consejeros están disponibles para ayudarte con cualquier situación académica o personal. ¿En qué puedo orientarte?"
  else if gBiblioteca lq then
    "Para la biblioteca y préstamos de libros 👉 <a href=\x27biblioteca.html\x27>Biblioteca</a>. Nuestro catálogo tiene muchos recursos de estudio disponibles. ¿Buscas algún libro en específico?"
  else if gComedor lq then
    "Para el servicio de comedor y ver el menú 👉 <a href=\x27comedor.html\x27>Comedor</a>. Sirvimos almuerzos de 11:00 AM a 1:00 PM. ¿Tienes alguna pregunta sobre la comida?"
  else if gPortalPadres lq then
    "Para el portal de comunicación con padres 👉 <a href=\x27padres.html\x27>Portal de Padres</a>. Allí puedes comunicarte directamente con los maestros y ver información de tus hijos. ¿Necesitas algo más?"
  else if gSeguridad lq then
    "Para temas de seguridad y registro de visitantes 👉 <a href=\x27seguridad.html\x27>Seguridad</a>. Puedes registrar visitantes y reportar incidentes. ¿En qué puedo ayudarte?"
  else if gDashboard lq then
    "Para ver el dashboard de evidencia y seguimiento académico 👉 <a href=\x27evidencia.html\x27>Dashboard Evidencia</a>. ¿Necesitas información adicional sobre el seguimiento?"
  else if gCorreos lq then
    "Aquí puedes ver los correos electrónicos de los maestros 👉 <a href=\x27correos-maestros-tabla.html\x27>Correos Electrónicos</a>. ¿Necesitas contactar a algún profesor en específico?"
  else if gTeams lq then
    "Para acceder a Microsoft Teams (clases virtuales) 👉 <a href=\x27https://login.microsoftonline.com/common/oauth2/v2.0/authorize?client_id=5e3ce6c0-2b1f-4285-8d4b-75ee78787346&scope=openId%20profile%20openid%20offline_access&redirect_uri=https%3A%2F%2Fteams.microsoft.com%2Fv2&client-request-id=019be6e8-5a6c-7d37-b129-894db9c8d8ef&response_mode=fragment&response_type=code&x-client-SKU=msal.js.browser&x-client-VER=3.30.0&client_info=1&code_challenge=6ZqFlWHLh3RpNojFPjlqU4h9HyciQoVF24L_a1_WF4A&code_challenge_method=S256&nonce=019be6e8-5a6d-7bdb-9075-c5ce0aa099ac&state=eyJpZCI6IjAxOWJlNmU4LTVhNmMtNzY0OS1hNGRlLWQ4YTQ0MTU4OGMxYyIsIm1ldGEiOnsiaW50ZXJhY3Rpb25UeXBlIjoicmVkaXJlY3QifX0%3D%7Chttps%3A%2F%2Fteams.microsoft.com%2Fv2%2F%3Fculture%3Den-us%26country%3Dus%26enablemcasfort21%3Dtrue\x27 target=\x27_blank\x27>Microsoft Teams</a>. ¡Que tengas una buena clase! 📚"
  else if gPowerDe lq then
    "Para acceder a Power DE (portal de información estudiantil) 👉 <a href=\x27https://informacionestudiantil.dde.pr/public/create_multi_student_account.html\x27 target=\x27_blank\x27>Power DE</a>. ¿Necesitas ayuda con tu cuenta?"
  else if gIgs lq then
    "Para calcular tu Índice de Graduación Secundária (IGS) 👉 <a href=\x27https://admisiones.upr.edu/calculadora-igs/\x27 target=\x27_blank\x27>Calculadora IGS</a>. ¡Éxito en tus cálculos! 📊"
  else if gDeportes lq then
    "Para ver las actividades deportivas 👉 <a href=\x27deportes.html\x27>Deportes</a>. Tenemos varias disciplinas disponibles. ¿Cuál te interesa?"
  else if gCapacidades lq then
    "¡Excelente! 😊 Soy el <strong>Asistente PCB</strong> y puedo ayudarte con muchas cosas:<br><br>🎓 <strong>Información de la Escuela</strong>: Horarios, ubicación, contacto, información general<br><br>📝 <strong>Matrícula</strong>: Proceso de inscripción, requisitos, fechas<br><br>📄 <strong>Solicitud de Documentos</strong>: Certificaciones, transcripciones, Records académicos<br><br>🔧 <strong>Servicios Técnicos</strong>: Soporte técnico, mantenimiento de equipos<br><br>🏥 <strong>Enfermería</strong>: Atención médica, medicamentos, emergencias<br><br>💬 <strong>Orientación</strong>: Apoyo académico, psicológico, consejería<br><br>📚 <strong>Biblioteca</strong>: Préstamo de libros, catálogo, reservas<br><br>🍽️ <strong>Comedor</strong>: Menú, horarios, información de almuerzo<br><br>👨‍👩‍👧 <strong>Portal de Padres</strong>: Comunicación con maestros, información de estudiantes<br><br>🛡️ <strong>Seguridad</strong>: Registro de visitantes, reportar incidentes<br><br>📊 <strong>Evidencia Académica</strong>: Dashboard de seguimiento, reportes<br><br>📧 <strong>Correos de Maestros</strong>: Directorio de contactos<br><br>💻 <strong>Recursos Digitales</strong>: Microsoft Teams, Power DE, Calculadora IGS<br><br>🏃 <strong>Deportes</strong>: Actividades deportivas, programas<br><br>❓ <strong>Responder Preguntas</strong>: Dudas generales sobre la escuela<br><br>🔍 <strong>Guía y Orientación</strong>: Te ayudo a encontrar lo que necesitas<br><br>¡Simplemente pregúntame lo que necesites saber! 😊"
  else if gQuienEres lq then
    "¡Excelente pregunta! 😊 Soy el <strong>Asistente Virtual PCB</strong> de la <strong>Escuela Superior Vocacional Pablo Colón Berdecia</strong>. Estoy aquí para orientarte y ayudarte a encontrar la información que necesitas sobre nuestros servicios, horarios, procesos y más. ¡Pregúntame lo que quieras!"
  else if gUbicacion lq then
    "La Escuela Superior Vocacional Pablo Colón Berdecia está ubicada en 📍 <strong>Puerto Rico</strong>. Para más detalles específicos sobre la dirección, te recomiendo contactar a la oficina principal. ¿Te gustaría que te proporcione más información de contacto?"
  else if gContacto lq then
    "Para contactar a la escuela, puedes usar el formulario en nuestra sección de 📞 <a href=\x27index.html#contacto\x27>Contacto</a>. Allí encontrarás los números telefónicos y correos electrónicos disponibles. ¿Necesitas algo más específico?"
  else if gHorario lq then
    "El horario escolar regular es de <strong>7:30 AM a 2:30 PM</strong> para los estudiantes. 📅 La oficina administrativa suele estar abierta de 8:00 AM a 3:00 PM. ¿Tienes alguna duda sobre un horario específico?"
  else if gInicioClases lq then
    "El año académico típicamente comienza en agosto. 📅 Te recomiendo estar atento a nuestras publicaciones y avisos para las fechas exactas de matrícula e inicio de clases. ¿Necesitas información sobre la matrícula?"
  else if gServicios lq then
    "¡Con gusto te informo! 🎓 La Escuela Superior Vocacional Pablo Colón Berdecia ofrece estos servicios:<br><br>📚 <a href=\x27matricula.html\x27>Matrícula Online</a>: Inscríbete fácilmente<br>📄 <a href=\x27solicitudes.html\x27>Solicitud de Documentos</a>: Certificaciones, transcripciones<br>🔧 <a href=\x27servicios-tecnicos.html\x27>Servicios Técnicos</a>: Soporte tecnológico<br>🏥 <a href=\x27enfermeria.html\x27>Enfermería</a>: Atención médica básica<br>💬 <a href=\x27orientacion.html\x27>Orientación</a>: Apoyo psicológico y académico<br>📖 <a href=\x27biblioteca.html\x27>Biblioteca</a>: Préstamo de libros<br>🍽️ <a href=\x27comedor.html\x27>Comedor</a>: Alimentación escolar<br>👨‍👩‍👧 <a href=\x27padres.html\x27>Portal de Padres</a>: Comunicación familiar<br>🛡️ <a href=\x27seguridad.html\x27>Seguridad</a>: Registro de visitantes<br>📊 <a href=\x27evidencia.html\x27>Dashboard Evidencia</a>: Seguimiento académico<br>🏃 <a href=\x27deportes.html\x27>Deportes</a>: Actividades físicas<br><br>¡Dime cuál te interesa y te ayudo! 😊"
  else if gEstado lq then
    "Para consultar el estado de tu solicitud, te recomiendo visitar la sección donde la creaste o contactar directamente a la oficina administrativa 📞. ellos podrán darte información actualizada sobre tu caso. ¿Tienes el número de solicitud?"
  else if gCuantoTarda lq then
    "El tiempo de procesamiento varía según el tipo de solicitud 📋. Generalmente:<br><br>• Documentos simples: 2-3 días hábiles<br>• Certificaciones: 3-5 días hábiles<br>• Matrículas: Depende del período<br><br>Te recomiendo presentar tu solicitud con anticipación. ¿Necesitas algo más?"
  else if gAyuda lq then
    "¡Claro que sí! 😊 Estoy aquí para ayudarte. Puedo orientarte sobre:<br><br>✅ Procesos de matrícula y solicitudes<br>✅ Horarios de servicios (comedor, biblioteca, etc.)<br>✅ Información de contacto<br>✅ Navegación en el sistema<br>✅ Y cualquier otra duda sobre la escuela<br><br>¿Qué necesitas saber?"
  else if gConfundido lq then
    "¡No te preocupes! 😊 Estoy aquí para ayudarte. Trata de explicarme tu duda con tus propias palabras y con gusto te ayudo a encontrar lo que necesitas. También puedes preguntarme directamente por un servicio específico. ¿Qué necesitas?"
  else if gAfirm lq then listPick affirmPool rnd
  else if gNeg lq then listPick negPool rnd
  else if gComoEstas lq then listPick comoEstasPool rnd
  else if gNombre lq then
    "Me llamo <strong>Asistente PCB</strong> 🤖, soy el asistente virtual de la Escuela Superior Vocacional Pablo Colón Berdecia. ¡Estoy para servirte! 😊"
  else if gClima lq then
    "No tengo acceso a información del clima en tiempo real 🌤️, pero te recomiendo revisar una aplicación del clima para verificar las condiciones actuales. ¿Hay algo más en lo que pueda ayudarte con la escuela?"
  else if gCalendario lq then
    "📅 <strong>Calendario Escolar 2025-2026 - Fechas Importantes:</strong><br><br><strong>FEBRERO:</strong><br>• 13 de febrero: Reuniones profesionales de facultad y equipo para análisis de intervenciones a estudiantes (tarde)<br>• 16 de febrero: Día festivo según calendario escolar<br>• 19 de febrero: Assessment<br><br><strong>MARZO:</strong><br>• 2 de marzo: Día festivo<br>• 16 de marzo: Assessment<br>• 20 de marzo: Reuniones profesionales (tarde)<br>• 23 de marzo: Día festivo<br>• 27 de marzo: Entrega del informe de progreso académico<br><br><strong>ABRIL:</strong><br>• 2 de abril: Receso académico (personal docente y no docente)<br>• 3 de abril: Feriado<br>• Del 13 de abril al 7 de mayo: Assessment<br><br><strong>MAYO:</strong><br>• Del 18 al 22 de mayo: Semana de la Educación<br>• 22 de mayo: Receso académico<br>• 25 de mayo: Feriado<br>• 26 y 27 de mayo: Evaluaciones finales<br>• 29 de mayo: Entrega del informe de progreso académico<br><br>¿Necesitas información más específica sobre alguna fecha? 😊"
  else if gAssessment lq then
    "📝 <strong>Información sobre Assessments:</strong><br><br><strong>FEBRERO:</strong><br>• 19 de febrero: Assessment<br><br><strong>MARZO:</strong><br>• 16 de marzo: Assessment<br><br><strong>ABRIL - MAYO:</strong><br>• Del 13 de abril al 7 de mayo: Assessment (período completo)<br><br>Los assessments son evaluaciones importantes para medir el progreso académico. ¿Tienes alguna pregunta específica sobre los horarios o preparación? 😊"
  else if gFeriado lq then
    "🎉 <strong>Días Festivos y Feriados 2025-2026:</strong><br><br><strong>FEBRERO:</strong><br>• 16 de febrero: Día festivo<br><br><strong>MARZO:</strong><br>• 2 de marzo: Día festivo<br>• 23 de marzo: Día festivo<br><br><strong>ABRIL:</strong><br>• 3 de abril: Feriado<br><br><strong>MAYO:</strong><br>• 25 de mayo: Feriado<br><br>¡Estos son los días donde no hay clases! ¿Necesitas más información? 😊"
  else if gReceso lq then
    "🌴 <strong>Recesos Académicos 2025-2026:</strong><br><br><strong>ABRIL:</strong><br>• 2 de abril: Receso académico (personal docente y no docente)<br>• 3 de abril: Feriado<br><br><strong>MAYO:</strong><br>• 22 de mayo: Receso académico (personal docente y no docente)<br><br>¿Necesitas información sobre otros períodos o eventos escolares? 😊"
  else if gInforme lq then
    "📊 <strong>Entrega de Informes de Progreso Académico:</strong><br><br>• <strong>27 de marzo:</strong> Entrega del informe de progreso académico en la escuela<br>• <strong>29 de mayo:</strong> Entrega del informe de progreso académico en la escuela<br><br>Estos informes muestran el progreso académico de los estudiantes. ¿Tienes alguna pregunta sobre cómo acceder a ellos o sobre el sistema de evaluación? 😊"
  else if gEducacion lq then
    "🎓 <strong>Semana de la Educación:</strong><br><br>• <strong>Del 18 al 22 de mayo:</strong> Semana de la Educación<br>• <strong>22 de mayo:</strong> Receso académico (docente y no docente)<br><br>Es una semana especial dedicada a actividades educativas y celebraciones. ¿Te gustaría saber más sobre las actividades planificadas? 😊"
  else if gFinales lq then
    "📚 <strong>Evaluaciones Finales 2025-2026:</strong><br><br>• <strong>26 y 27 de mayo:</strong> Evaluaciones finales<br><br>Las evaluaciones finales son exámenes que se realizan al final del año académico para evaluar el aprendizaje. ¿Necesitas información sobre el contenido o cómo prepararte? 😊"
  else if gFebreroEv lq then
    "📅 <strong>Eventos de Febrero 2026:</strong><br><br>• 13 de febrero: Reuniones profesionales de facultad y equipo (tarde)<br>• 16 de febrero: Día festivo<br>• 19 de febrero: Assessment<br><br>¿Necesitas más información sobre alguno de estos eventos? 😊"
  else if gMarzoEv lq then
    "📅 <strong>Eventos de Marzo 2026:</strong><br><br>• 2 de marzo: Día festivo<br>• 16 de marzo: Assessment<br>• 20 de marzo: Reuniones profesionales (tarde)<br>• 23 de marzo: Día festivo<br>• 27 de marzo: Entrega del informe de progreso académico<br><br>¿Necesitas más información sobre alguno de estos eventos? 😊"
  else if gAbrilEv lq then
    "📅 <strong>Eventos de Abril 2026:</strong><br><br>• 2 de abril: Receso académico<br>• 3 de abril: Feriado<br>• Del 13 de abril al 7 de mayo: Assessment<br><br>¿Necesitas más información sobre alguno de estos eventos? 😊"
  else if gMayoEv lq then
    "📅 <strong>Eventos de Mayo 2026:</strong><br><br>• Del 13 de abril al 7 de mayo: Assessment (continúa)<br>• Del 18 al 22 de mayo: Semana de la Educación<br>• 22 de mayo: Receso académico<br>• 25 de mayo: Feriado<br>• 26 y 27 de mayo: Evaluaciones finales<br>• 29 de mayo: Entrega del informe de progreso académico<br><br>¿Necesitas más información sobre alguno de estos eventos? 😊"
  else fallbackText

/-- Disjunction of every guard of the fixed cascade, in source order. -/
def anyFixedGuard (lq : List Char) : Bool :=
  gFarewell lq || gThanks lq || gMatricula lq || gSolicitudDoc lq || gTecnico lq ||
  gEnfermeria lq || gOrientacion lq || gBiblioteca lq || gComedor lq ||
  gPortalPadres lq || gSeguridad lq || gDashboard lq || gCorreos lq || gTeams lq ||
  gPowerDe lq || gIgs lq || gDeportes lq || gCapacidades lq || gQuienEres lq ||
  gUbicacion lq || gContacto lq || gHorario lq || gInicioClases lq || gServicios lq ||
  gEstado lq || gCuantoTarda lq || gAyuda lq || gConfundido lq || gAfirm lq ||
  gNeg lq || gComoEstas lq || gNombre lq || gClima lq || gCalendario lq ||
  gAssessment lq || gFeriado lq || gReceso lq || gInforme lq || gEducacion lq ||
  gFinales lq || gFebreroEv lq || gMarzoEv lq || gAbrilEv lq || gMayoEv lq

/-- `getAIResponse(query)`: the full ordered cascade.  `rnd` stands for
the one `Math.random()` draw the executed branch may consume.  The pair
is (response text, state after the call); only the first-greeting branch
mutates and persists state. -/
def getAIResponse (query : String) (rnd : Nat) (s : SMState) : String × SMState :=
  match dateBranch (lowerData query) with
  | some r => (r, s)
  | none =>
    match monthBranch query (lowerData query) with
    | some r => (r, s)
    | none =>
      if gGreet (lowerData query) then
        if s.data.firstGreeting then
          (firstGreetingText, saveData { s with data := { s.data with firstGreeting := false } })
        else
          (listPick greetingsPool rnd, s)
      else
        (fixedResp (lowerData query) rnd, s)



/-!  ## Operation traces

One constructor per state-touching public operation, with the host inputs
(clock, id-generator date and random draws) as explicit arguments.  `step`
returns the next state and, for `respond`, the displayed text. -/

inductive Op where
  | respond (q : String) (rnd : Nat)
  | createDoc (p : DocPayload) (now : String) (yy mm dd rnd : Nat)
  | updateReq (id newStatus comment now : String)
  | createEnr (payload now : String) (yy mm dd rnd : Nat)
  | nurse (payload now : String) (yy mm dd rnd : Nat)
  | counseling (payload now : String) (yy mm dd rnd : Nat)
  | earlyAlert (payload now : String) (yy mm dd rnd : Nat)
  | newTicket (payload now : String) (yy mm dd rnd : Nat)
  | wbl (ticketId studentName : String) (hours : Nat) (description now : String)
      (ev : Option String) (markCompleted : Bool)
  | reserve (payload now : String) (yy mm dd rnd : Nat)
  | parentMsg (payload now : String) (yy mm dd rnd : Nat)
  | visitor (payload now : String) (yy mm dd rnd : Nat)
  | checkout (visitorId now : String)
  | incident (payload now : String) (yy mm dd rnd : Nat)
  | news (title message : String) (img : Option String) (now : String) (yy mm dd rnd : Nat)
  | delNews (id : String)
  | addTick (t : Ticket)
  | updTick (t : Ticket)
  | resolve (ticketId techName now : String)
  | techScore (tech : String) (score : Nat)

/-- One operation of the embedded `ServiceManager`. -/
def step (s : SMState) : Op → SMState × Option String
  | .respond q rnd => ((getAIResponse q rnd s).2, some (getAIResponse q rnd s).1)
  | .createDoc p now a b c d => ((createDocumentRequest p now a b c d s).1, none)
  | .updateReq id ns c now => ((updateRequestStatus id ns c now s).1, none)
  | .createEnr p now a b c d => ((createEnrollment p now a b c d s).1, none)
  | .nurse p now a b c d => ((registerNurseVisit p now a b c d s).1, none)
  | .counseling p now a b c d => ((createCounselingAppointment p now a b c d s).1, none)
  | .earlyAlert p now a b c d => ((createEarlyAlert p now a b c d s).1, none)
  | .newTicket p now a b c d => ((createTicket p now a b c d s).1, none)
  | .wbl tid sn hrs desc now ev mk => ((logWBLHours tid sn hrs desc now ev mk s).1, none)
  | .reserve p now a b c d => ((reserveBook p now a b c d s).1, none)
  | .parentMsg p now a b c d => ((sendParentMessage p now a b c d s).1, none)
  | .visitor p now a b c d => ((registerVisitor p now a b c d s).1, none)
  | .checkout vid now => ((checkoutVisitor vid now s).1, none)
  | .incident p now a b c d => ((reportIncident p now a b c d s).1, none)
  | .news t m img now a b c d => ((addNews t m img now a b c d s).1, none)
  | .delNews id => ((deleteNews id s).1, none)
  | .addTick t => ((addTicket t s).1, none)
  | .updTick t => ((updateTicket t s).1, none)
  | .resolve tid tech now => ((resolveTicket tid tech now s).1, none)
  | .techScore tech sc => (saveTechScore tech sc s, none)

/-- The sequence of displayed responses along a trace of operations. -/
def runOuts : SMState → List Op → List String
  | _, [] => []
  | s, op :: rest =>
    match (step s op).2 with
    | some r => r :: runOuts (step s op).1 rest
    | none => runOuts (step s op).1 rest

/-- Shape checker for `<PREFIX>-<YYMMDD>-<3-digit>`. -/
def isDigits (l : List Char) : Bool := l.all isDigitChar

/-- Does `id` consist of the prefix, a dash, six digits, a dash and three
digits? -/
def idFormatOk (pfx id : String) : Bool :=
  pfx.data.isPrefixOf id.data &&
  (match id.data.drop pfx.data.length with
   | '-' :: a1 :: a2 :: a3 :: a4 :: a5 :: a6 :: '-' :: b1 :: b2 :: b3 :: [] =>
     isDigits [a1, a2, a3, a4, a5, a6] && isDigits [b1, b2, b3]
   | _ => false)

/-!  ## Range-containment refinement (spec wording vs code)  -/

/-- Modelled from the spec: the queried (month, day) lies within the
inclusive interval under month-then-day lexicographic comparison. -/
def specRangeHit (day month sd sm ed em : Nat) : Prop :=
  (sm < month ∨ (month = sm ∧ sd ≤ day)) ∧ (month < em ∨ (month = em ∧ day ≤ ed))

/-- Modelled from the spec: the month is strictly between the endpoint
months or equal to either endpoint. -/
def specCovers (monthNum sm em : Nat) : Prop :=
  (sm < monthNum ∧ monthNum < em) ∨ monthNum = sm ∨ monthNum = em

/-!  ## Helper lemmas  -/

/-- `head?` of a concatenation whose left part is non-empty. -/
theorem head_append_left (s t : String) (x : Char) (h : s.data.head? = some x) :
    (s ++ t).data.head? = some x := by
  rw [String.data_append]
  cases hS : s.data with
  | nil => rw [hS] at h; cases h
  | cons y u => rw [hS] at h; simpa using h

/-- A string starting with a given character differs from any string
starting differently. -/
theorem ne_of_head (a c : String) (x : Char) (ha : a.data.head? = some x)
    (hc : c.data.head? ≠ some x) : a ≠ c := by
  intro h
  rw [h] at ha
  exact hc ha

/-- `getD` inside the list when the index is in range. -/
theorem getD_mem (l : List α) (i : Nat) (d : α) (h : i < l.length) : l.getD i d ∈ l := by
  induction l generalizing i with
  | nil => simp at h
  | cons a t ih =>
    cases i with
    | zero => simp
    | succ j =>
      rw [List.getD_cons_succ]
      exact List.mem_cons_of_mem _ (ih j (by simpa using h))

/-- `getD` avoids `t` when every entry and the default do. -/
theorem getD_ne_all (l : List String) (i : Nat) (d t : String)
    (hl : ∀ x ∈ l, x ≠ t) (hd : d ≠ t) : l.getD i d ≠ t := by
  induction l generalizing i with
  | nil => simpa [List.getD] using hd
  | cons a tl ih =>
    cases i with
    | zero => simpa using hl a (by simp)
    | succ j =>
      rw [List.getD_cons_succ]
      exact ih j (fun x hx => hl x (List.mem_cons_of_mem _ hx))

/-- A pool draw differs from `t` when every pool entry does. -/
theorem listPick_ne (l : List String) (rnd : Nat) (t : String)
    (hl : ∀ x ∈ l, x ≠ t) (hd : ("" : String) ≠ t) : listPick l rnd ≠ t :=
  getD_ne_all l (rnd % l.length) "" t hl hd

/-- A pool draw is a pool member when the pool is non-empty. -/
theorem listPick_mem (l : List String) (rnd : Nat) (h : l ≠ []) :
    listPick l rnd ∈ l := by
  unfold listPick
  apply getD_mem
  apply Nat.mod_lt
  cases l with
  | nil => exact absurd rfl h
  | cons a t => simp

/-- A date response is never the first-greeting introduction (both shapes
start with the calendar emoji). -/
theorem dateResponse_ne_first (day : Nat) (mn : String) :
    dateResponse day mn ≠ firstGreetingText := by
  unfold dateResponse
  split
  · apply ne_of_head _ _ '📅'
    · repeat' apply head_append_left
      decide
    · decide
  · apply ne_of_head _ _ '📅'
    · repeat' apply head_append_left
      decide
    · decide

/-- A month listing is never the first-greeting introduction. -/
theorem monthListing_ne_first (mn : String) :
    monthListing mn ≠ firstGreetingText := by
  unfold monthListing
  split
  · apply ne_of_head _ _ '📅'
    · repeat' apply head_append_left
      decide
    · decide
  · apply ne_of_head _ _ '📅'
    · repeat' apply head_append_left
      decide
    · decide

/-- An if-then-else avoids `t` when both branches do. -/
theorem ite_ne (c : Prop) [Decidable c] (a b t : String) (ha : a ≠ t) (hb : b ≠ t) :
    (if c then a else b) ≠ t := by
  split
  · exact ha
  · exact hb

/-- No output of the cascade after the greeting rule is the first-greeting
introduction. -/
theorem fixedResp_ne_first (lq : List Char) (rnd : Nat) :
    fixedResp lq rnd ≠ firstGreetingText := by
  unfold fixedResp
  refine ite_ne _ _ _ _ (listPick_ne _ _ _ (by decide) (by decide)) ?_
  refine ite_ne _ _ _ _ (listPick_ne _ _ _ (by decide) (by decide)) ?_
  refine ite_ne _ _ _ _ (by decide) ?_
  refine ite_ne _ _ _ _ (by decide) ?_
  refine ite_ne _ _ _ _ (by decide) ?_
  refine ite_ne _ _ _ _ (by decide) ?_
  refine ite_ne _ _ _ _ (by decide) ?_
  refine ite_ne _ _ _ _ (by decide) ?_
  refine ite_ne _ _ _ _ (by decide) ?_
  refine ite_ne _ _ _ _ (by decide) ?_
  refine ite_ne _ _ _ _ (by decide) ?_
  refine ite_ne _ _ _ _ (by decide) ?_
  refine ite_ne _ _ _ _ (by decide) ?_
  refine ite_ne _ _ _ _ (by decide) ?_
  refine ite_ne _ _ _ _ (by decide) ?_
  refine ite_ne _ _ _ _ (by decide) ?_
  refine ite_ne _ _ _ _ (by decide) ?_
  refine ite_ne _ _ _ _ (by decide) ?_
  refine ite_ne _ _ _ _ (by decide) ?_
  refine ite_ne _ _ _ _ (by decide) ?_
  refine ite_ne _ _ _ _ (by decide) ?_
  refine ite_ne _ _ _ _ (by decide) ?_
  refine ite_ne _ _ _ _ (by decide) ?_
  refine ite_ne _ _ _ _ (by decide) ?_
  refine ite_ne _ _ _ _ (by decide) ?_
  refine ite_ne _ _ _ _ (by decide) ?_
  refine ite_ne _ _ _ _ (by decide) ?_
  refine ite_ne _ _ _ _ (by decide) ?_
  refine ite_ne _ _ _ _ (listPick_ne _ _ _ (by decide) (by decide)) ?_
  refine ite_ne _ _ _ _ (listPick_ne _ _ _ (by decide) (by decide)) ?_
  refine ite_ne _ _ _ _ (listPick_ne _ _ _ (by decide) (by decide)) ?_
  refine ite_ne _ _ _ _ (by decide) ?_
  refine ite_ne _ _ _ _ (by decide) ?_
  refine ite_ne _ _ _ _ (by decide) ?_
  refine ite_ne _ _ _ _ (by decide) ?_
  refine ite_ne _ _ _ _ (by decide) ?_
  refine ite_ne _ _ _ _ (by decide) ?_
  refine ite_ne _ _ _ _ (by decide) ?_
  refine ite_ne _ _ _ _ (by decide) ?_
  refine ite_ne _ _ _ _ (by decide) ?_
  refine ite_ne _ _ _ _ (by decide) ?_
  refine ite_ne _ _ _ _ (by decide) ?_
  refine ite_ne _ _ _ _ (by decide) ?_
  refine ite_ne _ _ _ _ (by decide) ?_
  decide

/-- Inversion: a date-branch hit is a `dateResponse`. -/
theorem dateBranch_some (lq : List Char) (r : String) (h : dateBranch lq = some r) :
    ∃ day mn, findDateMatch lq = some (day, mn) ∧ r = dateResponse day mn := by
  unfold dateBranch at h
  cases hf : findDateMatch lq with
  | none => rw [hf] at h; cases h
  | some dm =>
    obtain ⟨day, mn⟩ := dm
    rw [hf] at h
    simp only [Option.some.injEq] at h
    exact ⟨day, mn, rfl, h.symm⟩

/-- Inversion: a month-branch hit is a `monthListing` under a true guard. -/
theorem monthBranch_some (q : String) (lq : List Char) (r : String)
    (h : monthBranch q lq = some r) :
    ∃ mn, findMonth lq = some mn ∧ monthGuard q lq mn = true ∧ r = monthListing mn := by
  unfold monthBranch at h
  split at h
  · cases h
  · rename_i mn hf
    split at h
    · rename_i hg
      simp only [Option.some.injEq] at h
      exact ⟨mn, hf, hg, h.symm⟩
    · cases h

/-- Unfolding `getAIResponse` when the date rule fires. -/
theorem getAIResponse_date (q : String) (rnd : Nat) (s : SMState) (r : String)
    (h : dateBranch (lowerData q) = some r) :
    getAIResponse q rnd s = (r, s) := by
  unfold getAIResponse
  rw [h]

/-- Unfolding `getAIResponse` when the month rule fires. -/
theorem getAIResponse_month (q : String) (rnd : Nat) (s : SMState) (r : String)
    (h1 : dateBranch (lowerData q) = none) (h2 : monthBranch q (lowerData q) = some r) :
    getAIResponse q rnd s = (r, s) := by
  unfold getAIResponse
  rw [h1, h2]

/-- Unfolding `getAIResponse` on the first greeting. -/
theorem getAIResponse_greet_first (q : String) (rnd : Nat) (s : SMState)
    (h1 : dateBranch (lowerData q) = none) (h2 : monthBranch q (lowerData q) = none)
    (h3 : gGreet (lowerData q) = true) (h4 : s.data.firstGreeting = true) :
    getAIResponse q rnd s =
      (firstGreetingText, saveData { s with data := { s.data with firstGreeting := false } }) := by
  unfold getAIResponse
  rw [h1, h2, h3, if_pos rfl, h4, if_pos rfl]

/-- Unfolding `getAIResponse` on a subsequent greeting. -/
theorem getAIResponse_greet_later (q : String) (rnd : Nat) (s : SMState)
    (h1 : dateBranch (lowerData q) = none) (h2 : monthBranch q (lowerData q) = none)
    (h3 : gGreet (lowerData q) = true) (h4 : s.data.firstGreeting = false) :
    getAIResponse q rnd s = (listPick greetingsPool rnd, s) := by
  unfold getAIResponse
  rw [h1, h2, h3, if_pos rfl, h4]
  simp

/-- Unfolding `getAIResponse` past the greeting rule. -/
theorem getAIResponse_fixed (q : String) (rnd : Nat) (s : SMState)
    (h1 : dateBranch (lowerData q) = none) (h2 : monthBranch q (lowerData q) = none)
    (h3 : gGreet (lowerData q) = false) :
    getAIResponse q rnd s = (fixedResp (lowerData q) rnd, s) := by
  unfold getAIResponse
  rw [h1, h2, h3]
  simp

/-- The post-state of `getAIResponse` either has a cleared flag or is the
pre-state unchanged. -/
theorem getAIResponse_state (q : String) (rnd : Nat) (s : SMState) :
    ((getAIResponse q rnd s).2).data.firstGreeting = false ∨ (getAIResponse q rnd s).2 = s := by
  unfold getAIResponse
  cases dateBranch (lowerData q) with
  | some r => right; rfl
  | none =>
    cases monthBranch q (lowerData q) with
    | some r => right; rfl
    | none =>
      by_cases h3 : gGreet (lowerData q) = true
      · rw [h3, if_pos rfl]
        by_cases h4 : s.data.firstGreeting = true
        · rw [h4, if_pos rfl]
          left; rfl
        · right
          simp only [Bool.not_eq_true] at h4
          rw [h4]
          simp
      · simp only [Bool.not_eq_true] at h3
        rw [h3]
        simp

/-- The introduction is returned only from a flag-true state, and the
flag is cleared in the resulting state. -/
theorem getAIResponse_first_iff (q : String) (rnd : Nat) (s : SMState)
    (h : (getAIResponse q rnd s).1 = firstGreetingText) :
    s.data.firstGreeting = true ∧ ((getAIResponse q rnd s).2).data.firstGreeting = false := by
  cases hd : dateBranch (lowerData q) with
  | some r =>
    rw [getAIResponse_date q rnd s r hd] at h
    obtain ⟨day, mn, hf, hr⟩ := dateBranch_some _ _ hd
    exact absurd h (hr ▸ dateResponse_ne_first day mn)
  | none =>
    cases hm : monthBranch q (lowerData q) with
    | some r =>
      rw [getAIResponse_month q rnd s r hd hm] at h
      obtain ⟨mn, hf, hg, hr⟩ := monthBranch_some _ _ _ hm
      exact absurd h (hr ▸ monthListing_ne_first mn)
    | none =>
      by_cases h3 : gGreet (lowerData q) = true
      · by_cases h4 : s.data.firstGreeting = true
        · rw [getAIResponse_greet_first q rnd s hd hm h3 h4]
          exact ⟨h4, rfl⟩
        · have h4' : s.data.firstGreeting = false := by simpa using h4
          rw [getAIResponse_greet_later q rnd s hd hm h3 h4'] at h
          exact absurd h (listPick_ne _ _ _ (by decide) (by decide))
      · have h3' : gGreet (lowerData q) = false := by simpa using h3
        rw [getAIResponse_fixed q rnd s hd hm h3'] at h
        exact absurd h (fixedResp_ne_first _ _)

/-!  ## `updateFirst` lemmas  -/

/-- `updateFirst` after a successful `find?` rewrites exactly the found
position. -/
theorem updateFirst_spec (p : α → Bool) (f : α → α) (l : List α) (t : α)
    (h : l.find? p = some t) :
    ∃ i, l.get? i = some t ∧ updateFirst p f l = l.set i (f t) ∧
      (∀ j, j < i → (l.get? j).all (fun x => !p x)) := by
  induction l with
  | nil => cases h
  | cons a tl ih =>
    by_cases hp : p a = true
    · rw [List.find?_cons_of_pos _ hp] at h
      refine ⟨0, ?_, ?_, ?_⟩
      · simpa using h
      · injection h with h'
        subst h'
        simp [updateFirst, hp]
      · intro j hj
        omega
    · rw [List.find?_cons_of_neg _ (by simpa using hp)] at h
      obtain ⟨i, h1, h2, h3⟩ := ih h
      refine ⟨i + 1, by simpa using h1, ?_, ?_⟩
      · simp only [Bool.not_eq_true] at hp
        simp [updateFirst, hp, h2]
      · intro j hj
        cases j with
        | zero => simpa using hp
        | succ k => simpa using h3 k (by omega)

/-- The found element of `find?` satisfies the predicate and is a member. -/
theorem find?_props (p : α → Bool) (l : List α) (t : α) (h : l.find? p = some t) :
    p t = true ∧ t ∈ l :=
  ⟨List.find?_some h, List.mem_of_find?_eq_some h⟩

/-- `find?` over an `updateFirst` at the same predicate, when the update
preserves the predicate on the found element. -/
theorem find?_updateFirst (p : α → Bool) (f : α → α) (l : List α) (t : α)
    (h : l.find? p = some t) (hf : p (f t) = true) :
    (updateFirst p f l).find? p = some (f t) := by
  induction l with
  | nil => cases h
  | cons a tl ih =>
    by_cases hp : p a = true
    · rw [List.find?_cons_of_pos _ hp] at h
      injection h with h'
      subst h'
      simp [updateFirst, hp, List.find?_cons_of_pos _ hf]
    · rw [List.find?_cons_of_neg _ (by simpa using hp)] at h
      simp only [Bool.not_eq_true] at hp
      simp [updateFirst, hp, List.find?_cons_of_neg, ih h]

/-- No operation ever raises the `firstGreeting` flag. -/
theorem step_flag_mono (s : SMState) (op : Op) (h : s.data.firstGreeting = false) :
    ((step s op).1).data.firstGreeting = false := by
  cases op with
  | respond q rnd =>
    rcases getAIResponse_state q rnd s with hf | hs
    · simpa [step] using hf
    · simp only [step]
      rw [hs]
      exact h
  | createDoc p now a b c d => simpa [step, createDocumentRequest, saveData, notify] using h
  | updateReq id ns c now =>
    simp only [step]
    cases hr : getRequestById id s with
    | none => simpa [updateRequestStatus, hr] using h
    | some req => simpa [updateRequestStatus, hr, saveData, notify] using h
  | createEnr p now a b c d => simpa [step, createEnrollment, saveData, notify] using h
  | nurse p now a b c d => simpa [step, registerNurseVisit, saveData] using h
  | counseling p now a b c d =>
    simpa [step, createCounselingAppointment, saveData, notify] using h
  | earlyAlert p now a b c d => simpa [step, createEarlyAlert, saveData] using h
  | newTicket p now a b c d => simpa [step, createTicket, saveData, notify] using h
  | wbl tid sn hrs desc now ev mk =>
    simp only [step]
    cases hf : s.data.tickets_soporte.find? (fun t => t.id == tid) with
    | none => simpa [logWBLHours, hf] using h
    | some t => simpa [logWBLHours, hf, saveData] using h
  | reserve p now a b c d => simpa [step, reserveBook, saveData] using h
  | parentMsg p now a b c d => simpa [step, sendParentMessage, saveData, notify] using h
  | visitor p now a b c d => simpa [step, registerVisitor, saveData] using h
  | checkout vid now =>
    simp only [step]
    unfold checkoutVisitor
    repeat' split
    all_goals simpa [saveData] using h
  | incident p now a b c d => simpa [step, reportIncident, saveData, notify] using h
  | news t m img now a b c d => simpa [step, addNews, saveData] using h
  | delNews id =>
    simp only [step]
    cases hn : s.data.news with
    | none => simpa [deleteNews, hn] using h
    | some l => simpa [deleteNews, hn, saveData] using h
  | addTick t => simpa [step, addTicket, saveData] using h
  | updTick t =>
    simp only [step]
    cases hf : s.data.tickets_soporte.find? (fun u => u.id == t.id) with
    | none => simpa [updateTicket, hf] using h
    | some u => simpa [updateTicket, hf, saveData] using h
  | resolve tid tech now =>
    simp only [step]
    cases hf : s.data.tickets_soporte.find? (fun t => t.id == tid) with
    | none => simpa [resolveTicket, hf] using h
    | some t => simpa [resolveTicket, hf, saveData] using h
  | techScore tech sc => simpa [saveTechScore, saveData, step] using h

/-- The introduction appears in a step's output only from a flag-true
state, and the flag is cleared afterwards. -/
theorem step_out_first (s : SMState) (op : Op)
    (h : (step s op).2 = some firstGreetingText) :
    s.data.firstGreeting = true ∧ ((step s op).1).data.firstGreeting = false := by
  cases op with
  | respond q rnd =>
    simp only [step, Option.some.injEq] at h
    simpa [step] using getAIResponse_first_iff q rnd s h
  | createDoc p now a b c d => simp [step] at h
  | updateReq id ns c now => simp [step] at h
  | createEnr p now a b c d => simp [step] at h
  | nurse p now a b c d => simp [step] at h
  | counseling p now a b c d => simp [step] at h
  | earlyAlert p now a b c d => simp [step] at h
  | newTicket p now a b c d => simp [step] at h
  | wbl tid sn hrs desc now ev mk => simp [step] at h
  | reserve p now a b c d => simp [step] at h
  | parentMsg p now a b c d => simp [step] at h
  | visitor p now a b c d => simp [step] at h
  | checkout vid now => simp [step] at h
  | incident p now a b c d => simp [step] at h
  | news t m img now a b c d => simp [step] at h
  | delNews id => simp [step] at h
  | addTick t => simp [step] at h
  | updTick t => simp [step] at h
  | resolve tid tech now => simp [step] at h
  | techScore tech sc => simp [step] at h

/-- From a flag-false state the introduction never appears again. -/
theorem runOuts_count_zero (s : SMState) (ops : List Op)
    (h : s.data.firstGreeting = false) :
    (runOuts s ops).count firstGreetingText = 0 := by
  induction ops generalizing s with
  | nil => simp [runOuts]
  | cons op rest ih =>
    have h1 := step_flag_mono s op h
    cases ho : (step s op).2 with
    | none =>
      simp only [runOuts, ho]
      exact ih _ h1
    | some r =>
      have hr : r ≠ firstGreetingText := by
        intro he
        subst he
        have := (step_out_first s op ho).1
        rw [h] at this
        cases this
      simp only [runOuts, ho, List.count_cons]
      rw [ih _ h1]
      simp [hr]

/-!  ## Digit lemmas for the id generator  -/

set_option maxRecDepth 10000 in
/-- `pad2` of a value below 100 is its two decimal digits. -/
theorem pad2_data : ∀ n, n < 100 →
    (pad2 n).data = [Nat.digitChar (n / 10), Nat.digitChar (n % 10)] := by decide

set_option maxRecDepth 100000 in
/-- `padStart(3, '0')` of a value below 1000 is its three decimal digits. -/
theorem pad3_data : ∀ n, n < 1000 →
    (padStart3 (Nat.repr n)).data =
      [Nat.digitChar (n / 100), Nat.digitChar (n / 10 % 10), Nat.digitChar (n % 10)] := by decide

/-- Decimal digits are distinct characters. -/
theorem digitChar_inj : ∀ a, a < 10 → ∀ b, b < 10 →
    Nat.digitChar a = Nat.digitChar b → a = b := by decide

/-- Decimal digits satisfy the digit-character test. -/
theorem digit_isDigitChar : ∀ a, a < 10 → isDigitChar (Nat.digitChar a) = true := by decide

/-- A list is a `isPrefixOf` of itself followed by anything. -/
theorem isPrefixOf_append (a b : List Char) : a.isPrefixOf (a ++ b) = true := by
  induction a with
  | nil => simp [List.isPrefixOf]
  | cons x t ih => simp [List.isPrefixOf, ih]

/-- The characters of a generated id, fully expanded. -/
theorem generateId_data (pfx : String) (yy mm dd r : Nat)
    (hy : yy < 100) (hm : mm < 100) (hd : dd < 100) (hr : r < 1000) :
    (generateId pfx yy mm dd r).data =
      pfx.data ++ '-' :: Nat.digitChar (yy / 10) :: Nat.digitChar (yy % 10) ::
        Nat.digitChar (mm / 10) :: Nat.digitChar (mm % 10) ::
        Nat.digitChar (dd / 10) :: Nat.digitChar (dd % 10) ::
        '-' :: Nat.digitChar (r / 100) :: Nat.digitChar (r / 10 % 10) ::
        Nat.digitChar (r % 10) :: [] := by
  have hdash : ("-" : String).data = ['-'] := rfl
  unfold generateId
  simp [String.data_append, hdash, pad2_data yy hy, pad2_data mm hm, pad2_data dd hd,
    pad3_data r hr]

/-- The code's `afterStart && beforeEnd` coincides with the spec's
lexicographic containment. -/
theorem rangeHit_iff (day month sd sm ed em : Nat) :
    rangeHit day month sd sm ed em = true ↔ specRangeHit day month sd sm ed em := by
  unfold rangeHit specRangeHit
  simp [Bool.or_eq_true, Bool.and_eq_true, decide_eq_true_eq, beq_iff_eq]

/-- The code's covering test coincides with the spec's months-only test. -/
theorem coversMonth_iff (monthNum sm em : Nat) :
    coversMonth monthNum sm em = true ↔ specCovers monthNum sm em := by
  unfold coversMonth specCovers
  simp [Bool.or_eq_true, Bool.and_eq_true, decide_eq_true_eq, beq_iff_eq, or_assoc]

/-- When no guard of the fixed cascade holds, the cascade returns the
default fallback sentence. -/
theorem fixedResp_of_no_guard (lq : List Char) (rnd : Nat)
    (h : anyFixedGuard lq = false) : fixedResp lq rnd = fallbackText := by
  unfold anyFixedGuard at h
  rw [Bool.or_eq_false_iff] at h
  obtain ⟨h, h44⟩ := h
  rw [Bool.or_eq_false_iff] at h
  obtain ⟨h, h43⟩ := h
  rw [Bool.or_eq_false_iff] at h
  obtain ⟨h, h42⟩ := h
  rw [Bool.or_eq_false_iff] at h
  obtain ⟨h, h41⟩ := h
  rw [Bool.or_eq_false_iff] at h
  obtain ⟨h, h40⟩ := h
  rw [Bool.or_eq_false_iff] at h
  obtain ⟨h, h39⟩ := h
  rw [Bool.or_eq_false_iff] at h
  obtain ⟨h, h38⟩ := h
  rw [Bool.or_eq_false_iff] at h
  obtain ⟨h, h37⟩ := h
  rw [Bool.or_eq_false_iff] at h
  obtain ⟨h, h36⟩ := h
  rw [Bool.or_eq_false_iff] at h
  obtain ⟨h, h35⟩ := h
  rw [Bool.or_eq_false_iff] at h
  obtain ⟨h, h34⟩ := h
  rw [Bool.or_eq_false_iff] at h
  obtain ⟨h, h33⟩ := h
  rw [Bool.or_eq_false_iff] at h
  obtain ⟨h, h32⟩ := h
  rw [Bool.or_eq_false_iff] at h
  obtain ⟨h, h31⟩ := h
  rw [Bool.or_eq_false_iff] at h
  obtain ⟨h, h30⟩ := h
  rw [Bool.or_eq_false_iff] at h
  obtain ⟨h, h29⟩ := h
  rw [Bool.or_eq_false_iff] at h
  obtain ⟨h, h28⟩ := h
  rw [Bool.or_eq_false_iff] at h
  obtain ⟨h, h27⟩ := h
  rw [Bool.or_eq_false_iff] at h
  obtain ⟨h, h26⟩ := h
  rw [Bool.or_eq_false_iff] at h
  obtain ⟨h, h25⟩ := h
  rw [Bool.or_eq_false_iff] at h
  obtain ⟨h, h24⟩ := h
  rw [Bool.or_eq_false_iff] at h
  obtain ⟨h, h23⟩ := h
  rw [Bool.or_eq_false_iff] at h
  obtain ⟨h, h22⟩ := h
  rw [Bool.or_eq_false_iff] at h
  obtain ⟨h, h21⟩ := h
  rw [Bool.or_eq_false_iff] at h
  obtain ⟨h, h20⟩ := h
  rw [Bool.or_eq_false_iff] at h
  obtain ⟨h, h19⟩ := h
  rw [Bool.or_eq_false_iff] at h
  obtain ⟨h, h18⟩ := h
  rw [Bool.or_eq_false_iff] at h
  obtain ⟨h, h17⟩ := h
  rw [Bool.or_eq_false_iff] at h
  obtain ⟨h, h16⟩ := h
  rw [Bool.or_eq_false_iff] at h
  obtain ⟨h, h15⟩ := h
  rw [Bool.or_eq_false_iff] at h
  obtain ⟨h, h14⟩ := h
  rw [Bool.or_eq_false_iff] at h
  obtain ⟨h, h13⟩ := h
  rw [Bool.or_eq_false_iff] at h
  obtain ⟨h, h12⟩ := h
  rw [Bool.or_eq_false_iff] at h
  obtain ⟨h, h11⟩ := h
  rw [Bool.or_eq_false_iff] at h
  obtain ⟨h, h10⟩ := h
  rw [Bool.or_eq_false_iff] at h
  obtain ⟨h, h9⟩ := h
  rw [Bool.or_eq_false_iff] at h
  obtain ⟨h, h8⟩ := h
  rw [Bool.or_eq_false_iff] at h
  obtain ⟨h, h7⟩ := h
  rw [Bool.or_eq_false_iff] at h
  obtain ⟨h, h6⟩ := h
  rw [Bool.or_eq_false_iff] at h
  obtain ⟨h, h5⟩ := h
  rw [Bool.or_eq_false_iff] at h
  obtain ⟨h, h4⟩ := h
  rw [Bool.or_eq_false_iff] at h
  obtain ⟨h, h3⟩ := h
  rw [Bool.or_eq_false_iff] at h
  obtain ⟨h, h2⟩ := h
  have h1 := h
  simp [fixedResp, h1, h2, h3, h4, h5, h6, h7, h8, h9, h10, h11, h12, h13, h14, h15, h16, h17, h18, h19, h20, h21, h22, h23, h24, h25, h26, h27, h28, h29, h30, h31, h32, h33, h34, h35, h36, h37, h38, h39, h40, h41, h42, h43, h44]

/-!  ## Claim theorems  -/

/-- C8: when no rule of the ordered cascade matches — no date pattern, no
month query, no greeting word, and none of the fixed keyword guards —
`getAIResponse` returns exactly the fixed fallback apology string and
leaves the state untouched. -/
theorem c8_theorem (q : String) (rnd : Nat) (s : SMState)
    (h1 : dateBranch (lowerData q) = none)
    (h2 : monthBranch q (lowerData q) = none)
    (h3 : gGreet (lowerData q) = false)
    (h4 : anyFixedGuard (lowerData q) = false) :
    getAIResponse q rnd s = (fallbackText, s) := by
  rw [getAIResponse_fixed q rnd s h1 h2 h3, fixedResp_of_no_guard _ rnd h4]

/-- C8 witness: `respond("xyzzy not a real query")` is exactly the
fallback apology. -/
theorem c8_witness :
    getAIResponse ("xyzzy not a real query") 0 initState = (fallbackText, initState) :=
  c8_theorem ("xyzzy not a real query") 0 initState (by decide) (by decide) (by decide)
    (by decide)

/-- C9: no operation of the embedded manager ever sets `firstGreeting`
back to true, and along any trace of operations from any starting state
the distinguished first-greeting introduction is displayed at most
once. -/
theorem c9_theorem :
    (∀ (s : SMState) (op : Op), s.data.firstGreeting = false →
      ((step s op).1).data.firstGreeting = false) ∧
    (∀ (s : SMState) (ops : List Op),
      (runOuts s ops).count firstGreetingText ≤ 1) := by
  constructor
  · exact step_flag_mono
  · intro s ops
    induction ops generalizing s with
    | nil => simp [runOuts]
    | cons op rest ih =>
      cases ho : (step s op).2 with
      | none =>
        simp only [runOuts, ho]
        exact ih _
      | some r =>
        by_cases hr : r = firstGreetingText
        · subst hr
          have h2 := (step_out_first s op ho).2
          simp only [runOuts, ho, List.count_cons]
          rw [runOuts_count_zero _ rest h2]
          simp
        · simp only [runOuts, ho, List.count_cons]
          have := ih (step s op).1
          have hne : (r == firstGreetingText) = false := beq_eq_false_iff_ne.mpr hr
          rw [hne]
          simpa using this

/-- C9 witness: a flag-false state stays flag-false under a respond step,
and a concrete two-greeting trace shows the introduction at most once. -/
theorem c9_witness :
    ((step { data := { freshDoc with firstGreeting := false }, storage := none, notes := [] }
        (Op.respond ("Hola") 0)).1).data.firstGreeting = false ∧
    (runOuts initState [Op.respond ("Hola") 0, Op.respond ("Hola") 1]).count
      firstGreetingText ≤ 1 := by
  constructor
  · exact c9_theorem.1 _ (Op.respond ("Hola") 0) (by decide)
  · exact c9_theorem.2 initState _

/-- C1 counterexample: "hola marzo" contains the greeting word `hola`,
yet `respond` returns the March month listing — not the first-greeting
introduction — and leaves `firstGreeting` true, refuting the claim for
arbitrary inputs containing a greeting word. -/
theorem c1_counterexample :
    gGreet (lowerData ("hola marzo")) = true ∧
    (getAIResponse ("hola marzo") 0 initState).1 ≠ firstGreetingText ∧
    ((getAIResponse ("hola marzo") 0 initState).2).data.firstGreeting = true := by
  refine ⟨by decide, by decide, by decide⟩

/-- C1 (amended): for an input containing a greeting word that is not
captured by the earlier date or month rules: with `firstGreeting = true`
the respond returns exactly the distinguished introduction, clears the
flag and persists the cleared document; with `firstGreeting = false` it
returns a member of the fixed four-entry pool, never the introduction,
and leaves the state untouched. -/
theorem c1_theorem (q : String) (rnd : Nat) (s : SMState)
    (h1 : dateBranch (lowerData q) = none)
    (h2 : monthBranch q (lowerData q) = none)
    (h3 : gGreet (lowerData q) = true) :
    (s.data.firstGreeting = true →
      getAIResponse q rnd s =
        (firstGreetingText, saveData { s with data := { s.data with firstGreeting := false } }) ∧
      ((getAIResponse q rnd s).2).data.firstGreeting = false ∧
      ((getAIResponse q rnd s).2).storage = some ((getAIResponse q rnd s).2).data) ∧
    (s.data.firstGreeting = false →
      (getAIResponse q rnd s).1 ∈ greetingsPool ∧
      (getAIResponse q rnd s).1 ≠ firstGreetingText ∧
      (getAIResponse q rnd s).2 = s) := by
  constructor
  · intro h4
    have he := getAIResponse_greet_first q rnd s h1 h2 h3 h4
    refine ⟨he, ?_, ?_⟩
    · rw [he]
      rfl
    · rw [he]
      rfl
  · intro h4
    have he := getAIResponse_greet_later q rnd s h1 h2 h3 h4
    rw [he]
    exact ⟨listPick_mem _ _ (by decide), listPick_ne _ _ _ (by decide) (by decide), rfl⟩

/-- C1 witness: `respond("Hola")` on the fresh store returns the
introduction, clears and persists the flag; a second `respond("Hola")`
returns a pool member distinct from the introduction. -/
theorem c1_witness :
    getAIResponse ("Hola") 0 initState =
      (firstGreetingText,
        saveData { initState with data := { initState.data with firstGreeting := false } }) ∧
    (getAIResponse ("Hola") 5 ((getAIResponse ("Hola") 0 initState).2)).1 ∈ greetingsPool ∧
    (getAIResponse ("Hola") 5 ((getAIResponse ("Hola") 0 initState).2)).1 ≠
      firstGreetingText := by
  have ha := (c1_theorem ("Hola") 0 initState (by decide) (by decide) (by decide)).1 (by decide)
  have hb := (c1_theorem ("Hola") 5 ((getAIResponse ("Hola") 0 initState).2) (by decide)
    (by decide) (by decide)).2 (by decide)
  exact ⟨ha.1, hb.1, hb.2.1⟩

/-- A list occurs in itself followed by anything. -/
theorem hasSub_self_append (n b : List Char) : hasSub n (n ++ b) = true := by
  cases n with
  | nil =>
    cases b with
    | nil => rfl
    | cons c t => simp [hasSub, List.isPrefixOf]
  | cons c t => simp [hasSub, List.cons_append, isPrefixOf_append]

/-- Occurrence is preserved by prepending. -/
theorem hasSub_append_left (a n x : List Char) (h : hasSub n x = true) :
    hasSub n (a ++ x) = true := by
  induction a with
  | nil => simpa using h
  | cons c t ih => simp [hasSub, List.cons_append, ih]

/-- C2: whenever the date pattern matches the input with day `day` and
month name `mn`, `respond` returns the `dateResponse` and leaves the
state untouched; a range event matches exactly under the spec's
month-then-day lexicographic containment; a non-empty match list appears
in the response joined with `; `, and an empty one yields the fixed
no-events sentence.  Concretely, `respond("16 de febrero")` mentions
`Día festivo` and `respond("20 de abril")` reports the Assessment range
with its formatted span. -/
theorem c2_theorem (q : String) (rnd : Nat) (s : SMState) (day : Nat) (mn : String)
    (h : findDateMatch (lowerData q) = some (day, mn)) :
    getAIResponse q rnd s = (dateResponse day mn, s) ∧
    (∀ sd sm ed em, rangeHit day (monthVal mn) sd sm ed em = true ↔
      specRangeHit day (monthVal mn) sd sm ed em) ∧
    (dateMatches day (monthVal mn) ≠ [] →
      hasSub (String.intercalate ("; ") (dateMatches day (monthVal mn))).data
        (dateResponse day mn).data = true) ∧
    (dateMatches day (monthVal mn) = [] →
      dateResponse day mn =
        "📅 No hay eventos listados para el " ++ Nat.repr day ++ " de " ++ mn ++
          " en el calendario escolar. ¿Deseas ver el calendario completo?") ∧
    hasSub (String.data ("Día festivo"))
      (String.data ((getAIResponse ("16 de febrero") 0 initState).1)) = true ∧
    (getAIResponse ("20 de abril") 0 initState).1 =
      "📅 El 20 de abril: Assessment (período completo) (del 13 de abril al 7 de mayo)." := by
  have hdb : dateBranch (lowerData q) = some (dateResponse day mn) := by
    unfold dateBranch
    rw [h]
  refine ⟨getAIResponse_date q rnd s _ hdb,
    fun sd sm ed em => rangeHit_iff day (monthVal mn) sd sm ed em, ?_, ?_, by decide, by decide⟩
  · intro hne
    have hemp : (dateMatches day (monthVal mn)).isEmpty = false := by
      cases hdm : dateMatches day (monthVal mn) with
      | nil => exact absurd hdm hne
      | cons a t => rfl
    unfold dateResponse
    simp only [hemp, Bool.false_eq_true, if_false, String.data_append, List.append_assoc]
    apply hasSub_append_left
    apply hasSub_append_left
    apply hasSub_append_left
    apply hasSub_append_left
    apply hasSub_append_left
    exact hasSub_self_append _ _
  · intro he
    unfold dateResponse
    rw [he]
    rfl

/-- C2 witness: `"16 de febrero"` matches the date pattern and `respond`
returns its `dateResponse`. -/
theorem c2_witness :
    findDateMatch (lowerData ("16 de febrero")) = some (16, ("febrero")) ∧
    getAIResponse ("16 de febrero") 0 initState = (dateResponse 16 ("febrero"), initState) := by
  have h : findDateMatch (lowerData ("16 de febrero")) = some (16, ("febrero")) := by decide
  exact ⟨h, (c2_theorem ("16 de febrero") 0 initState 16 ("febrero") h).1⟩

set_option maxRecDepth 100000 in
/-- C3: when a bare month name is found, no date pattern matched, and the
guard (trimmed input of at most 12 UTF-16 units, an explicit query
keyword, or the literal `en <month>`) holds, `respond` returns the month
listing and leaves the state untouched; the guard is exactly that
disjunction; a range event is listed exactly under the spec's coarser
months-only covering test; when the guard fails the month rule falls
through.  Concretely `respond("marzo")` lists the five bulleted March
events. -/
theorem c3_theorem (q : String) (rnd : Nat) (s : SMState) (mn : String)
    (h1 : dateBranch (lowerData q) = none)
    (h2 : findMonth (lowerData q) = some mn)
    (h3 : monthGuard q (lowerData q) mn = true) :
    getAIResponse q rnd s = (monthListing mn, s) ∧
    (monthGuard q (lowerData q) mn =
      (decide (jsLen (jsTrim q.data) ≤ 12) || kwTest (lowerData q) ||
        hasIncl (lowerData q) ("en " ++ mn))) ∧
    (∀ sm em, coversMonth (monthVal mn) sm em = true ↔ specCovers (monthVal mn) sm em) ∧
    (∀ mn2, findMonth (lowerData q) = some mn2 → monthGuard q (lowerData q) mn2 = false →
      monthBranch q (lowerData q) = none) ∧
    (getAIResponse ("marzo") 0 initState).1 =
      "📅 <strong>Eventos de Marzo</strong>:<br><br>• 2 de marzo: Día festivo<br>• 16 de marzo: Assessment<br>• 20 de marzo: Reuniones profesionales (tarde)<br>• 23 de marzo: Día festivo<br>• 27 de marzo: Entrega del informe de progreso académico" ∧
    (monthResults ("marzo") 3).length = 5 := by
  have hmb : monthBranch q (lowerData q) = some (monthListing mn) := by
    simp [monthBranch, h2, h3]
  refine ⟨getAIResponse_month q rnd s _ h1 hmb, rfl,
    fun sm em => coversMonth_iff (monthVal mn) sm em, ?_, by decide, by decide⟩
  intro mn2 hf hg
  simp [monthBranch, hf, hg]

set_option maxRecDepth 100000 in
/-- C3 witness: `"marzo"` is a bare month query with a true guard and
`respond` returns its month listing. -/
theorem c3_witness :
    findMonth (lowerData ("marzo")) = some ("marzo") ∧
    getAIResponse ("marzo") 0 initState = (monthListing ("marzo"), initState) := by
  have h2 : findMonth (lowerData ("marzo")) = some ("marzo") := by decide
  exact ⟨h2, (c3_theorem ("marzo") 0 initState ("marzo") (by decide) h2 (by decide)).1⟩

set_option maxRecDepth 100000 in
/-- C4 counterexample: two distinct records created into the same
collection in one session, with the same date and the same random draw,
receive the same id — uniqueness is not guaranteed. -/
theorem c4_counterexample :
    let p1 : DocPayload :=
      { type := ("certificacion"), studentName := ("Ana"), studentId := ("S1"),
        grade := ("10"), email := ("a@x"), phone := ("555"), details := ("d") }
    let p2 : DocPayload := { p1 with studentName := ("Luis") }
    let a := createDocumentRequest p1 ("t0") 26 2 13 7 initState
    let b := createDocumentRequest p2 ("t0") 26 2 13 7 a.1
    a.2 ≠ b.2 ∧ a.2.id = b.2.id ∧
    a.2 ∈ b.1.data.solicitudes_documentos ∧ b.2 ∈ b.1.data.solicitudes_documentos := by
  refine ⟨by decide, by decide, by decide, by decide⟩

/-- C4 (amended): every generated id has the `<PREFIX>-<YYMMDD>-<3-digit>`
shape, and two ids generated with the same prefix are distinct whenever
their (date, random draw) inputs differ — uniqueness holds only up to
the quality of the random draw. -/
theorem c4_theorem (pfx : String) (yy mm dd r yy2 mm2 dd2 r2 : Nat)
    (hy : yy < 100) (hm : mm < 100) (hd : dd < 100) (hr : r < 1000)
    (hy2 : yy2 < 100) (hm2 : mm2 < 100) (hd2 : dd2 < 100) (hr2 : r2 < 1000) :
    idFormatOk pfx (generateId pfx yy mm dd r) = true ∧
    ((yy, mm, dd, r) ≠ (yy2, mm2, dd2, r2) →
      generateId pfx yy mm dd r ≠ generateId pfx yy2 mm2 dd2 r2) := by
  constructor
  · unfold idFormatOk
    rw [generateId_data pfx yy mm dd r hy hm hd hr]
    rw [isPrefixOf_append, List.drop_left]
    have d1 := digit_isDigitChar (yy / 10) (by omega)
    have d2 := digit_isDigitChar (yy % 10) (by omega)
    have d3 := digit_isDigitChar (mm / 10) (by omega)
    have d4 := digit_isDigitChar (mm % 10) (by omega)
    have d5 := digit_isDigitChar (dd / 10) (by omega)
    have d6 := digit_isDigitChar (dd % 10) (by omega)
    have d7 := digit_isDigitChar (r / 100) (by omega)
    have d8 := digit_isDigitChar (r / 10 % 10) (by omega)
    have d9 := digit_isDigitChar (r % 10) (by omega)
    simp [isDigits, d1, d2, d3, d4, d5, d6, d7, d8, d9]
  · intro hne heq
    have hdata := congrArg String.data heq
    rw [generateId_data pfx yy mm dd r hy hm hd hr,
        generateId_data pfx yy2 mm2 dd2 r2 hy2 hm2 hd2 hr2] at hdata
    have hlist := List.append_cancel_left hdata
    simp only [List.cons.injEq, and_true] at hlist
    obtain ⟨-, e1, e2, e3, e4, e5, e6, -, e7, e8, e9⟩ := hlist
    apply hne
    have q1 := digitChar_inj _ (by omega) _ (by omega) e1
    have q2 := digitChar_inj _ (by omega) _ (by omega) e2
    have q3 := digitChar_inj _ (by omega) _ (by omega) e3
    have q4 := digitChar_inj _ (by omega) _ (by omega) e4
    have q5 := digitChar_inj _ (by omega) _ (by omega) e5
    have q6 := digitChar_inj _ (by omega) _ (by omega) e6
    have q7 := digitChar_inj _ (by omega) _ (by omega) e7
    have q8 := digitChar_inj _ (by omega) _ (by omega) e8
    have q9 := digitChar_inj _ (by omega) _ (by omega) e9
    have hyy : yy = yy2 := by omega
    have hmm : mm = mm2 := by omega
    have hdd : dd = dd2 := by omega
    have hrr : r = r2 := by omega
    subst hyy hmm hdd hrr
    rfl

/-- C4 witness: a concrete id has the required shape, and changing only
the random draw changes the id. -/
theorem c4_witness :
    idFormatOk ("DOC") (generateId ("DOC") 26 2 13 7) = true ∧
    generateId ("DOC") 26 2 13 7 ≠ generateId ("DOC") 26 2 13 8 := by
  have h := c4_theorem ("DOC") 26 2 13 7 26 2 13 8 (by decide) (by decide) (by decide)
    (by decide) (by decide) (by decide) (by decide) (by decide)
  exact ⟨h.1, h.2 (by decide)⟩

/-- Unfolding `resolveTicket` when the ticket is found. -/
theorem resolveTicket_found (tid tech now : String) (s : SMState) (t : Ticket)
    (h : s.data.tickets_soporte.find? (fun u => u.id == tid) = some t) :
    resolveTicket tid tech now s =
      (saveData { s with data := { s.data with tickets_soporte := updateFirst (fun u => u.id == tid) (fun _ => { t with status := "resuelto", resolvedBy := some tech, resolvedDate := some now }) s.data.tickets_soporte } },
       some { t with status := "resuelto", resolvedBy := some tech, resolvedDate := some now }) := by
  unfold resolveTicket
  rw [h]

/-- C5: resolving an already-resolved ticket overwrites deterministically:
the second call returns the ticket again (no no-op signal), its status is
`resuelto` as before, and `resolvedBy`/`resolvedDate` carry the second
call's values. -/
theorem c5_theorem (tid n1 n2 d1 d2 : String) (s : SMState) (t : Ticket)
    (h : s.data.tickets_soporte.find? (fun u => u.id == tid) = some t) :
    (resolveTicket tid n1 d1 s).2 =
      some { t with status := "resuelto", resolvedBy := some n1, resolvedDate := some d1 } ∧
    (resolveTicket tid n2 d2 (resolveTicket tid n1 d1 s).1).2 =
      some { t with status := "resuelto", resolvedBy := some n2, resolvedDate := some d2 } ∧
    (resolveTicket tid n2 d2 (resolveTicket tid n1 d1 s).1).2 ≠ none := by
  have hp := List.find?_some h
  have h1 := resolveTicket_found tid n1 d1 s t h
  have hfind1 : ((resolveTicket tid n1 d1 s).1).data.tickets_soporte.find?
      (fun u => u.id == tid) =
      some { t with status := "resuelto", resolvedBy := some n1, resolvedDate := some d1 } := by
    rw [h1]
    exact find?_updateFirst _ _ _ _ h hp
  have h2 := resolveTicket_found tid n2 d2 _ _ hfind1
  refine ⟨by rw [h1], ?_, ?_⟩
  · rw [h2]
  · rw [h2]
    simp

/-- C5 witness: a concrete double-resolve returns the re-stamped ticket. -/
theorem c5_witness :
    (resolveTicket ("TICK-1") ("Luis") ("t2")
        (resolveTicket ("TICK-1") ("Ana") ("t1")
          { data :=
              { freshDoc with tickets_soporte :=
                  [{ id := ("TICK-1"), payload := ("impresora"), status := ("abierto"),
                     assignedTo := none, dateCreated := ("t0"), logs := [],
                     resolvedBy := none, resolvedDate := none, dateClosed := none }] },
            storage := none, notes := [] }).1).2 =
      some { id := ("TICK-1"), payload := ("impresora"), status := ("resuelto"),
             assignedTo := none, dateCreated := ("t0"), logs := [],
             resolvedBy := some ("Luis"), resolvedDate := some ("t2"),
             dateClosed := none } := by
  have h := c5_theorem ("TICK-1") ("Ana") ("Luis") ("t1") ("t2")
    { data :=
        { freshDoc with tickets_soporte :=
            [{ id := ("TICK-1"), payload := ("impresora"), status := ("abierto"),
               assignedTo := none, dateCreated := ("t0"), logs := [],
               resolvedBy := none, resolvedDate := none, dateClosed := none }] },
      storage := none, notes := [] }
    { id := ("TICK-1"), payload := ("impresora"), status := ("abierto"),
      assignedTo := none, dateCreated := ("t0"), logs := [], resolvedBy := none,
      resolvedDate := none, dateClosed := none }
    (by decide)
  exact h.2.1

/-- C6: updating a document request with an unknown id returns `false`
and leaves the entire state (records, storage, notifications) untouched;
with a known id it returns `true`, rewrites exactly the first matching
record — status set, `lastUpdate` re-stamped, a comment entry appended
exactly when the comment is non-empty — leaves every other position
unchanged, persists the document, and appends a notification event. -/
theorem c6_theorem (id ns c now : String) (s : SMState) :
    (getRequestById id s = none → updateRequestStatus id ns c now s = (s, false)) ∧
    (∀ req, getRequestById id s = some req →
      (updateRequestStatus id ns c now s).2 = true ∧
      ∃ i, s.data.solicitudes_documentos.get? i = some req ∧
        ((updateRequestStatus id ns c now s).1).data.solicitudes_documentos =
          s.data.solicitudes_documentos.set i { req with status := ns, lastUpdate := now, comments := if c == "" then req.comments else req.comments ++ [{ text := c, date := now, author := ("Administrador") }] } ∧
        (∀ j, j ≠ i →
          ((updateRequestStatus id ns c now s).1).data.solicitudes_documentos.get? j =
            s.data.solicitudes_documentos.get? j) ∧
        ((updateRequestStatus id ns c now s).1).storage =
          some (((updateRequestStatus id ns c now s).1).data) ∧
        ((updateRequestStatus id ns c now s).1).notes =
          s.notes ++ [(req.id, ("updated"))]) := by
  constructor
  · intro h
    unfold updateRequestStatus
    rw [h]
  · intro req h
    have hrun : updateRequestStatus id ns c now s =
        (notify (saveData { s with data := { s.data with solicitudes_documentos := updateFirst (fun r => r.id == id) (fun _ => { req with status := ns, lastUpdate := now, comments := if c == "" then req.comments else req.comments ++ [{ text := c, date := now, author := ("Administrador") }] }) s.data.solicitudes_documentos } }) req.id ("updated"), true) := by
      unfold updateRequestStatus
      rw [h]
    have hfind : s.data.solicitudes_documentos.find? (fun r => r.id == id) = some req := h
    obtain ⟨i, hg, hu, -⟩ := updateFirst_spec (fun r => r.id == id)
      (fun _ => { req with status := ns, lastUpdate := now, comments := if c == "" then req.comments else req.comments ++ [{ text := c, date := now, author := ("Administrador") }] })
      s.data.solicitudes_documentos req hfind
    rw [hrun]
    refine ⟨rfl, i, hg, ?_, ?_, rfl, rfl⟩
    · exact hu
    · intro j hj
      show (updateFirst (fun r => r.id == id) (fun _ => { req with status := ns, lastUpdate := now, comments := if c == "" then req.comments else req.comments ++ [{ text := c, date := now, author := ("Administrador") }] }) s.data.solicitudes_documentos).get? j = s.data.solicitudes_documentos.get? j
      rw [hu]
      exact List.get?_set_ne _ _ (Ne.symm hj)

/-- C6 witness: on a store with one request, an unknown id is a silent
no-op `false` and the known id updates to `true`. -/
theorem c6_witness :
    updateRequestStatus ("MISSING") ("en_proceso") ("") ("t1")
      { data :=
          { freshDoc with solicitudes_documentos :=
              [{ id := ("DOC-1"), type := ("certificacion"), studentName := ("Ana"),
                 studentId := ("S1"), grade := ("10"), email := ("a@x"),
                 phone := ("555"), details := ("d"), status := ("pendiente"),
                 requestDate := ("t0"), lastUpdate := ("t0"), comments := [] }] },
        storage := none, notes := [] } =
      ({ data :=
           { freshDoc with solicitudes_documentos :=
               [{ id := ("DOC-1"), type := ("certificacion"), studentName := ("Ana"),
                  studentId := ("S1"), grade := ("10"), email := ("a@x"),
                  phone := ("555"), details := ("d"), status := ("pendiente"),
                  requestDate := ("t0"), lastUpdate := ("t0"), comments := [] }] },
         storage := none, notes := [] }, false) ∧
    (updateRequestStatus ("DOC-1") ("en_proceso") ("ok") ("t1")
      { data :=
          { freshDoc with solicitudes_documentos :=
              [{ id := ("DOC-1"), type := ("certificacion"), studentName := ("Ana"),
                 studentId := ("S1"), grade := ("10"), email := ("a@x"),
                 phone := ("555"), details := ("d"), status := ("pendiente"),
                 requestDate := ("t0"), lastUpdate := ("t0"), comments := [] }] },
        storage := none, notes := [] }).2 = true := by
  constructor
  · exact (c6_theorem ("MISSING") ("en_proceso") ("") ("t1") _).1 (by decide)
  · exact ((c6_theorem ("DOC-1") ("en_proceso") ("ok") ("t1") _).2
      { id := ("DOC-1"), type := ("certificacion"), studentName := ("Ana"),
        studentId := ("S1"), grade := ("10"), email := ("a@x"), phone := ("555"),
        details := ("d"), status := ("pendiente"), requestDate := ("t0"),
        lastUpdate := ("t0"), comments := [] } (by decide)).1

/-- C7 counterexample: the freshly initialized document of `loadData` does
not contain every collection — the lazily-created visitor-log collection
is absent — so "all collections present and empty" fails on a fresh
load. -/
theorem c7_counterexample :
    (loadData none).seguridad_visitas = none ∧ (loadData none).firstGreeting = true :=
  ⟨rfl, rfl⟩

/-- C7 (amended): `load()` without a persisted document yields the fresh
schema: `firstGreeting = true`, the eight initial collections present and
empty, and the lazily-created collections absent; every creating
operation that uses an absent collection (`createEarlyAlert`,
`reserveBook`, `sendParentMessage`, `registerVisitor`, `reportIncident`,
`addNews`, `saveTechScore`) initializes it to an empty sequence before
appending — and appends normally when the collection is present — while
the operations that merely consult an absent collection
(`checkoutVisitor`, `deleteNews`) return a failure signal without an
exception and leave the state unchanged, so no operation fails on a
missing collection key. -/
theorem c7_theorem (s : SMState) (p now title message tech vid delId : String)
    (img : Option String) (sc a b c d : Nat) :
    (loadData none = freshDoc ∧ freshDoc.firstGreeting = true ∧
      freshDoc.solicitudes_documentos = [] ∧ freshDoc.matriculas = [] ∧
      freshDoc.enfermeria_visitas = [] ∧ freshDoc.tickets_soporte = [] ∧
      freshDoc.citas_orientacion = [] ∧ freshDoc.inventario_biblioteca = [] ∧
      freshDoc.usuarios = [] ∧ freshDoc.news = some [] ∧
      freshDoc.alertas_tempranas = none ∧ freshDoc.reservas_biblioteca = none ∧
      freshDoc.mensajes_padres = none ∧ freshDoc.seguridad_visitas = none ∧
      freshDoc.seguridad_incidentes = none ∧ freshDoc.techScores = none) ∧
    (s.data.alertas_tempranas = none →
      ((createEarlyAlert p now a b c d s).1).data.alertas_tempranas =
        some [(createEarlyAlert p now a b c d s).2]) ∧
    (s.data.reservas_biblioteca = none →
      ((reserveBook p now a b c d s).1).data.reservas_biblioteca =
        some [(reserveBook p now a b c d s).2]) ∧
    (s.data.mensajes_padres = none →
      ((sendParentMessage p now a b c d s).1).data.mensajes_padres =
        some [(sendParentMessage p now a b c d s).2]) ∧
    (s.data.seguridad_visitas = none →
      ((registerVisitor p now a b c d s).1).data.seguridad_visitas =
        some [(registerVisitor p now a b c d s).2]) ∧
    (∀ l, s.data.seguridad_visitas = some l →
      ((registerVisitor p now a b c d s).1).data.seguridad_visitas =
        some (l ++ [(registerVisitor p now a b c d s).2])) ∧
    (s.data.seguridad_incidentes = none →
      ((reportIncident p now a b c d s).1).data.seguridad_incidentes =
        some [(reportIncident p now a b c d s).2]) ∧
    (s.data.news = none →
      ((addNews title message img now a b c d s).1).data.news =
        some [(addNews title message img now a b c d s).2]) ∧
    (s.data.techScores = none →
      (saveTechScore tech sc s).data.techScores = some [(tech, sc)]) ∧
    (s.data.seguridad_visitas = none → checkoutVisitor vid now s = (s, false)) ∧
    (s.data.news = none → deleteNews delId s = (s, false)) := by
  refine ⟨⟨rfl, rfl, rfl, rfl, rfl, rfl, rfl, rfl, rfl, rfl, rfl, rfl, rfl, rfl, rfl, rfl⟩,
    ?_, ?_, ?_, ?_, ?_, ?_, ?_, ?_, ?_, ?_⟩
  · intro h
    simp [createEarlyAlert, h, saveData]
  · intro h
    simp [reserveBook, h, saveData]
  · intro h
    simp [sendParentMessage, h, saveData, notify]
  · intro h
    simp [registerVisitor, h, saveData]
  · intro l h
    simp [registerVisitor, h, saveData]
  · intro h
    simp [reportIncident, h, saveData, notify]
  · intro h
    simp [addNews, h, saveData]
  · intro h
    simp [saveTechScore, h, saveData]
  · intro h
    unfold checkoutVisitor
    rw [h]
  · intro h
    unfold deleteNews
    rw [h]

/-- C7 witness: on the fresh store, registering a visitor creates the
absent collection with exactly the new record, while checking a visitor
out returns `false` and leaves the state unchanged. -/
theorem c7_witness :
    ((registerVisitor ("Ana") ("t0") 26 2 13 7 initState).1).data.seguridad_visitas =
      some [(registerVisitor ("Ana") ("t0") 26 2 13 7 initState).2] ∧
    checkoutVisitor ("VIS-1") ("t0") initState = (initState, false) := by
  obtain ⟨-, -, -, -, h4, -, -, -, -, h9, -⟩ :=
    c7_theorem initState ("Ana") ("t0") ("ti") ("m") ("te") ("VIS-1") ("N1") none 1 26 2 13 7
  exact ⟨h4 (by decide), h9 (by decide)⟩

/-- C10: `deleteNews` returns `false` exactly when the `news` collection
is missing (leaving the state untouched); when the collection exists it
returns `true` regardless of whether any item matches, removes every item
with the given id, keeps every other item (in original order, the result
being a sublist), and persists. -/
theorem c10_theorem (id : String) (s : SMState) :
    (s.data.news = none → deleteNews id s = (s, false)) ∧
    (∀ l, s.data.news = some l →
      (deleteNews id s).2 = true ∧
      ((deleteNews id s).1).data.news = some (l.filter (fun n => n.id != id)) ∧
      (∀ x ∈ l, x.id ≠ id → x ∈ l.filter (fun n => n.id != id)) ∧
      (∀ x ∈ l.filter (fun n => n.id != id), x.id ≠ id) ∧
      (l.filter (fun n => n.id != id)).Sublist l ∧
      ((deleteNews id s).1).storage = some (((deleteNews id s).1).data)) := by
  constructor
  · intro h
    unfold deleteNews
    rw [h]
  · intro l h
    have hrun : deleteNews id s =
        (saveData { s with data := { s.data with news := some (l.filter (fun n => n.id != id)) } }, true) := by
      unfold deleteNews
      rw [h]
    rw [hrun]
    refine ⟨rfl, rfl, ?_, ?_, List.filter_sublist l, rfl⟩
    · intro x hx hne
      exact List.mem_filter.mpr ⟨hx, by simpa [bne_iff_ne] using hne⟩
    · intro x hx
      have hb := (List.mem_filter.mp hx).2
      simpa [bne_iff_ne] using hb

/-- C10 witness: deleting a non-existent id from an existing news list
still returns `true` and leaves the list unchanged. -/
theorem c10_witness :
    (deleteNews ("NOPE")
      { data := { freshDoc with news := some [{ id := ("NEWS-1"), title := ("t"), message := ("m"), imageUrl := none, date := ("d"), active := true }] },
        storage := none, notes := [] }).2 = true :=
  ((c10_theorem ("NOPE")
      { data := { freshDoc with news := some [{ id := ("NEWS-1"), title := ("t"), message := ("m"), imageUrl := none, date := ("d"), active := true }] },
        storage := none, notes := [] }).2
    [{ id := ("NEWS-1"), title := ("t"), message := ("m"), imageUrl := none,
       date := ("d"), active := true }] rfl).1
